import Mathlib

/-!
# NodeClass validation (pkg/apis/v1beta1/nodeclass_validation.go)

A shallow embedding of the validators of `nodeclass_validation.go` and the
properties of their results.

* Pointers (`*string`, `*int64`, `*resource.Quantity`, `*BlockDevice`,
  `*MetadataOptions`) are `Option`s, `nil` being `none`.
* A Go `map[string]string` is the list of its entries in the order in which
  `range` visits them.
* A `resource.Quantity` is the rational number it denotes; `Cmp` is the order
  of the rationals.
* The error value `*apis.FieldError` is the list of its leaves in the order of
  `Also`; the `nil` error is the empty list.
-/

namespace Karpenter

/-! ## Field paths and the error value -/

/-- One segment of a field path: a field name, or the index of a sequence
element (rendered `[i]` and glued to the name before it). -/
inductive Seg where
  | field (name : String)
  | index (i : Nat)
  deriving DecidableEq, Repr

/-- A field path, outermost segment first: `[field "ebs", field "volumeSize"]`
renders as `ebs.volumeSize`, `[field "a", index 0, field "b"]` as `a[0].b`. -/
abbrev Path := List Seg

/-- The path named by one `fieldPath` argument of an error constructor. The
empty string is `apis.CurrentField`: it names the field the error is later
qualified under, and contributes no segment. -/
def pathOf (fieldPath : String) : Path :=
  if fieldPath = "" then [] else [Seg.field fieldPath]

/-- The message of an error leaf, kept as the `apis` constructor that built it
together with the arguments the constructor formats into the text. -/
inductive Message where
  /-- Message of `apis.ErrMissingField`: "missing field(s)". -/
  | missingField
  /-- Message of `apis.ErrMissingOneOf`: "expected exactly one, got neither". -/
  | missingOneOf
  /-- Message of `apis.ErrInvalidValue(value, _)`: "invalid value: " then the value. -/
  | invalidValue (value : String)
  /-- Message of `apis.ErrInvalidKeyName(key, _, details...)`: "invalid key name "
  then the quoted key, with the details joined by ", ". -/
  | invalidKeyName (key : String) (details : List String)
  /-- Message of `apis.ErrOutOfBoundsValue(value, lower, upper, _)`:
  "expected lower <= value <= upper". -/
  | outOfBounds (value lower upper : ℚ)
  /-- Message of `apis.ErrGeneric(diagnostic, _)`: the diagnostic itself. -/
  | generic (diagnostic : String)
  deriving DecidableEq, Repr

/-- An error leaf: a message and the field paths it is reported at. A
constructor called without a field path builds a leaf with no path. -/
structure Leaf where
  message : Message
  paths : List Path
  deriving DecidableEq, Repr

/-- Modelled from the spec: the error value `*apis.FieldError` of the imported
package `knative.dev/pkg/apis`, which is not part of src/. It is an aggregate of
zero or more leaves, each a message with zero or more field paths; the empty
aggregate (`nil`) is the "no error" value. -/
abbrev FieldError := List Leaf

namespace FieldError

/-- Modelled from the spec: `fe.Also(errs...)` of `knative.dev/pkg/apis`, for one
argument. The result holds the leaves of the receiver first, then the leaves of
the argument; a call with several arguments is the left-to-right chain. -/
def Also (fe e : FieldError) : FieldError := fe ++ e

/-- Modelled from the spec: `fe.ViaField(name)` of `knative.dev/pkg/apis`. Every
path of every leaf gets `name` in front (`for _, oldPath := range fe.Paths`),
so a leaf that has no path keeps none; messages, the number of leaves and their
order are unchanged. -/
def ViaField (fe : FieldError) (name : String) : FieldError :=
  fe.map fun l => { l with paths := l.paths.map fun p => pathOf name ++ p }

/-- Modelled from the spec: `fe.ViaIndex(i)` of `knative.dev/pkg/apis`, which is
`ViaField` with the segment `[i]`. -/
def ViaIndex (fe : FieldError) (i : Nat) : FieldError :=
  fe.map fun l => { l with paths := l.paths.map fun p => Seg.index i :: p }

/-- Modelled from the spec: `fe.ViaFieldIndex(field, i)` of
`knative.dev/pkg/apis`, defined there as `fe.ViaIndex(i).ViaField(field)`. -/
def ViaFieldIndex (fe : FieldError) (name : String) (i : Nat) : FieldError :=
  (fe.ViaIndex i).ViaField name

end FieldError

/-- Constructor `apis.ErrMissingField(fieldPaths...)`. -/
def ErrMissingField (fieldPaths : List String) : FieldError :=
  [{ message := .missingField, paths := fieldPaths.map pathOf }]

/-- Constructor `apis.ErrMissingOneOf(fieldPaths...)`. -/
def ErrMissingOneOf (fieldPaths : List String) : FieldError :=
  [{ message := .missingOneOf, paths := fieldPaths.map pathOf }]

/-- Constructor `apis.ErrInvalidValue(value, fieldPath)`. -/
def ErrInvalidValue (value fieldPath : String) : FieldError :=
  [{ message := .invalidValue value, paths := [pathOf fieldPath] }]

/-- Constructor `apis.ErrInvalidKeyName(key, fieldPath, details...)`. -/
def ErrInvalidKeyName (key fieldPath : String) (details : List String) : FieldError :=
  [{ message := .invalidKeyName key details, paths := [pathOf fieldPath] }]

/-- Constructor `apis.ErrOutOfBoundsValue(value, lower, upper, fieldPath)`. -/
def ErrOutOfBoundsValue (value lower upper : ℚ) (fieldPath : String) : FieldError :=
  [{ message := .outOfBounds value lower upper, paths := [pathOf fieldPath] }]

/-- Constructor `apis.ErrGeneric(diagnostic, fieldPaths...)`. -/
def ErrGeneric (diagnostic : String) (fieldPaths : List String) : FieldError :=
  [{ message := .generic diagnostic, paths := fieldPaths.map pathOf }]

/-! ## Kinds of leaves -/

/-- A `MissingField` leaf. -/
def Leaf.isMissingField (l : Leaf) : Bool :=
  match l.message with
  | .missingField => true
  | _ => false

/-- A `MissingOneOf` leaf. -/
def Leaf.isMissingOneOf (l : Leaf) : Bool :=
  match l.message with
  | .missingOneOf => true
  | _ => false

/-- An `InvalidValue` leaf. -/
def Leaf.isInvalidValue (l : Leaf) : Bool :=
  match l.message with
  | .invalidValue _ => true
  | _ => false

/-- An `InvalidKeyName` leaf. -/
def Leaf.isInvalidKeyName (l : Leaf) : Bool :=
  match l.message with
  | .invalidKeyName _ _ => true
  | _ => false

/-- An `OutOfBounds` leaf. -/
def Leaf.isOutOfBounds (l : Leaf) : Bool :=
  match l.message with
  | .outOfBounds _ _ _ => true
  | _ => false

/-- A `Generic` leaf. -/
def Leaf.isGeneric (l : Leaf) : Bool :=
  match l.message with
  | .generic _ => true
  | _ => false

/-- Diagnostic of the exclusivity error on `id`. -/
def idExclusiveMsg : String :=
  "\"id\" is mutually exclusive, cannot be set with a combination of other fields in"

/-- Diagnostic of the exclusivity error on `name`. -/
def nameExclusiveMsg : String :=
  "\"name\" is mutually exclusive, cannot be set with a combination of other fields in"

/-- The "at least one, got none" leaf of a selector term (the subnet validator
writes "expected", the other two "expect"). -/
def Leaf.isGotNone (l : Leaf) : Bool :=
  decide (l.message = .generic "expected at least one, got none") ||
    decide (l.message = .generic "expect at least one, got none")

/-- A mutual-exclusivity leaf of a selector term. -/
def Leaf.isMutuallyExclusive (l : Leaf) : Bool :=
  decide (l.message = .generic idExclusiveMsg) ||
    decide (l.message = .generic nameExclusiveMsg)

/-! ## The data model -/

/-- A Go `map[string]string`, as its entries in iteration order. -/
abbrev TagMap := List (String × String)

/-- Type `SubnetSelectorTerm`. -/
structure SubnetSelectorTerm where
  Tags : TagMap
  ID : String
  deriving DecidableEq, Repr

/-- Type `SecurityGroupSelectorTerm`. -/
structure SecurityGroupSelectorTerm where
  Tags : TagMap
  ID : String
  Name : String
  deriving DecidableEq, Repr

/-- Type `AMISelectorTerm`. -/
structure AMISelectorTerm where
  Tags : TagMap
  ID : String
  Name : String
  SSM : String
  Owner : String
  deriving DecidableEq, Repr

/-- Type `MetadataOptions`: four optional scalars. -/
structure MetadataOptions where
  HTTPEndpoint : Option String
  HTTPProtocolIPv6 : Option String
  HTTPPutResponseHopLimit : Option Int
  HTTPTokens : Option String
  deriving DecidableEq, Repr

/-- Type `BlockDevice`, the EBS descriptor of a mapping. -/
structure BlockDevice where
  VolumeType : Option String
  VolumeSize : Option ℚ
  SnapshotID : Option String
  deriving DecidableEq, Repr

/-- Type `BlockDeviceMapping`. -/
structure BlockDeviceMapping where
  DeviceName : Option String
  EBS : Option BlockDevice
  deriving DecidableEq, Repr

/-- Type `NodeClassSpec`. The entries of `BlockDeviceMappings` are the mappings
the slice points to. -/
structure NodeClassSpec where
  SubnetSelectorTerms : List SubnetSelectorTerm
  SecurityGroupSelectorTerms : List SecurityGroupSelectorTerm
  AMISelectorTerms : List AMISelectorTerm
  AMIFamily : Option String
  UserData : Option String
  Tags : TagMap
  MetadataOptions : Option MetadataOptions
  BlockDeviceMappings : List BlockDeviceMapping
  deriving DecidableEq, Repr

/-- Type `NodeClass`: the object metadata (a Kubernetes type, kept abstract) and
the spec. -/
structure NodeClass (Meta : Type) where
  ObjectMeta : Meta
  Spec : NodeClassSpec

/-- A compiled regular expression, as far as the validator uses it:
`pattern.String()` and `pattern.MatchString`. -/
structure Pattern where
  source : String
  MatchString : String → Bool

/-- Modelled from the spec: the static data the validators consume, declared
outside src/ (the family sentinels, `SupportedAMIFamilies` and
`RestrictedTagPatterns` of this package, and the enumeration tables of the
EC2 SDK), together with `Quote`, the text that the verb `%q` of `fmt.Sprintf`
prints for a string (a double-quoted, escaped Go string literal). The values are
not fixed here; every result holds for all of them. -/
structure StaticData where
  Quote : String → String
  AMIFamilyCustom : String
  AMIFamilyWindows2019 : String
  AMIFamilyWindows2022 : String
  SupportedAMIFamilies : List String
  RestrictedTagPatterns : List Pattern
  EndpointStateValues : List String
  ProtocolIpv6Values : List String
  HttpTokensStateValues : List String
  VolumeTypeValues : List String

/-! ## Path constants and volume bounds -/

def userDataPath : String := "userData"
def subnetSelectorTermsPath : String := "subnetSelectorTerms"
def securityGroupSelectorTermsPath : String := "securityGroupSelectorTerms"
def amiSelectorTermsPath : String := "amiSelectorTerms"
def amiFamilyPath : String := "amiFamily"
def tagsPath : String := "tags"
def metadataOptionsPath : String := "metadataOptions"
def blockDeviceMappingsPath : String := "blockDeviceMappings"

/-- The quantity `resource.NewScaledQuantity(1, resource.Giga)`: 1 * 10^9. -/
def minVolumeSize : ℚ := 1 * 10 ^ 9

/-- The quantity `resource.NewScaledQuantity(64, resource.Tera)`: 64 * 10^12. -/
def maxVolumeSize : ℚ := 64 * 10 ^ 12

/-! ## Validators -/

/-- The package-level `validateTags(m)`: one pass over the entries of a selector
term's tag map. -/
def validateTags : TagMap → FieldError
  | [] => []
  | (k, v) :: rest =>
    ((if k = "" then ErrInvalidKeyName "\"\"" "" [] else []) ++
      (if v = "" then ErrInvalidValue "\"\"" k else [])) ++ validateTags rest

/-- Method `SubnetSelectorTerm.validate`. -/
def SubnetSelectorTerm.validate (t : SubnetSelectorTerm) : FieldError :=
  let errs : FieldError := FieldError.Also [] ((validateTags t.Tags).ViaField "tags")
  if t.Tags.length = 0 ∧ t.ID = "" then
    errs.Also (ErrGeneric "expected at least one, got none" ["tags", "id"])
  else if t.ID ≠ "" ∧ t.Tags.length > 0 then
    errs.Also (ErrGeneric idExclusiveMsg [])
  else errs

/-- Loop of `validateSubnetSelectorTerms`: `errs = errs.Also(term.validate()).ViaIndex(i)`
for the terms from index `i` on. -/
def validateSubnetSelectorTermsLoop :
    Nat → List SubnetSelectorTerm → FieldError → FieldError
  | _, [], errs => errs
  | i, term :: rest, errs =>
    validateSubnetSelectorTermsLoop (i + 1) rest ((errs.Also term.validate).ViaIndex i)

/-- Method `NodeClassSpec.validateSubnetSelectorTerms`. -/
def NodeClassSpec.validateSubnetSelectorTerms (s : NodeClassSpec) : FieldError :=
  let errs : FieldError :=
    if s.SubnetSelectorTerms.length = 0 then FieldError.Also [] (ErrMissingOneOf []) else []
  validateSubnetSelectorTermsLoop 0 s.SubnetSelectorTerms errs

/-- Method `SecurityGroupSelectorTerm.validate`. -/
def SecurityGroupSelectorTerm.validate (t : SecurityGroupSelectorTerm) : FieldError :=
  let errs : FieldError := FieldError.Also [] ((validateTags t.Tags).ViaField "tags")
  if t.Tags.length = 0 ∧ t.ID = "" ∧ t.Name = "" then
    errs.Also (ErrGeneric "expect at least one, got none" ["tags", "id", "name"])
  else if t.ID ≠ "" ∧ (t.Tags.length > 0 ∨ t.Name ≠ "") then
    errs.Also (ErrGeneric idExclusiveMsg [])
  else if t.Name ≠ "" ∧ (t.Tags.length > 0 ∨ t.ID ≠ "") then
    errs.Also (ErrGeneric nameExclusiveMsg [])
  else errs

/-- Loop of `validateSecurityGroupSelectorTerms`: `errs = errs.Also(term.validate())`. -/
def validateSecurityGroupSelectorTermsLoop :
    List SecurityGroupSelectorTerm → FieldError → FieldError
  | [], errs => errs
  | term :: rest, errs => validateSecurityGroupSelectorTermsLoop rest (errs.Also term.validate)

/-- Method `NodeClassSpec.validateSecurityGroupSelectorTerms`. -/
def NodeClassSpec.validateSecurityGroupSelectorTerms (s : NodeClassSpec) : FieldError :=
  let errs : FieldError :=
    if s.SecurityGroupSelectorTerms.length = 0 then FieldError.Also [] (ErrMissingOneOf [])
    else []
  validateSecurityGroupSelectorTermsLoop s.SecurityGroupSelectorTerms errs

/-- Method `AMISelectorTerm.validate`. -/
def AMISelectorTerm.validate (t : AMISelectorTerm) : FieldError :=
  let errs : FieldError := FieldError.Also [] ((validateTags t.Tags).ViaField "tags")
  if t.Tags.length = 0 ∧ t.ID = "" ∧ t.Name = "" ∧ t.SSM = "" then
    errs.Also (ErrGeneric "expect at least one, got none" ["tags", "id", "name", "ssm"])
  else if t.ID ≠ "" ∧ (t.Tags.length > 0 ∨ t.Name ≠ "" ∨ t.SSM ≠ "" ∨ t.Owner ≠ "") then
    errs.Also (ErrGeneric idExclusiveMsg [])
  else errs

/-- Loop of `validateAMISelectorTerms`: `errs = errs.Also(term.validate())`. -/
def validateAMISelectorTermsLoop : List AMISelectorTerm → FieldError → FieldError
  | [], errs => errs
  | term :: rest, errs => validateAMISelectorTermsLoop rest (errs.Also term.validate)

/-- Method `NodeClassSpec.validateAMISelectorTerms`. -/
def NodeClassSpec.validateAMISelectorTerms (s : NodeClassSpec) : FieldError :=
  validateAMISelectorTermsLoop s.AMISelectorTerms []

/-- Method `NodeClassSpec.validateStringEnum`: empty as soon as `value` equals
one of `validValues`, otherwise `InvalidValue` at `field`, the message being
`fmt.Sprintf("%s not in %v", value, strings.Join(validValues, ", "))`. -/
def validateStringEnum (value field : String) (validValues : List String) : FieldError :=
  if validValues.any (fun validValue => decide (value = validValue)) then []
  else ErrInvalidValue (value ++ " not in " ++ ", ".intercalate validValues) field

/-- Method `NodeClassSpec.validateHTTPEndpoint`, on the metadata options that
`validateMetadataOptions` found present. -/
def validateHTTPEndpoint (d : StaticData) (m : MetadataOptions) : FieldError :=
  match m.HTTPEndpoint with
  | none => []
  | some v => validateStringEnum v "httpEndpoint" d.EndpointStateValues

/-- Method `NodeClassSpec.validateHTTPProtocolIpv6`. -/
def validateHTTPProtocolIpv6 (d : StaticData) (m : MetadataOptions) : FieldError :=
  match m.HTTPProtocolIPv6 with
  | none => []
  | some v => validateStringEnum v "httpProtocolIPv6" d.ProtocolIpv6Values

/-- Method `NodeClassSpec.validateHTTPPutResponseHopLimit`. -/
def validateHTTPPutResponseHopLimit (m : MetadataOptions) : FieldError :=
  match m.HTTPPutResponseHopLimit with
  | none => []
  | some limit =>
    if limit < 1 ∨ limit > 64 then ErrOutOfBoundsValue limit 1 64 "httpPutResponseHopLimit"
    else []

/-- Method `NodeClassSpec.validateHTTPTokens`. -/
def validateHTTPTokens (d : StaticData) (m : MetadataOptions) : FieldError :=
  match m.HTTPTokens with
  | none => []
  | some v => validateStringEnum v "httpTokens" d.HttpTokensStateValues

/-- Method `NodeClassSpec.validateMetadataOptions`. -/
def NodeClassSpec.validateMetadataOptions (d : StaticData) (s : NodeClassSpec) : FieldError :=
  match s.MetadataOptions with
  | none => []
  | some m =>
    (((FieldError.Also [] (validateHTTPEndpoint d m)).Also (validateHTTPProtocolIpv6 d m)).Also
      (validateHTTPPutResponseHopLimit m)).Also (validateHTTPTokens d m)

/-- Method `NodeClassSpec.validateDeviceName`. -/
def validateDeviceName (b : BlockDeviceMapping) : FieldError :=
  match b.DeviceName with
  | none => ErrMissingField ["deviceName"]
  | some _ => []

/-- Method `NodeClassSpec.validateVolumeType`, on the EBS descriptor that
`validateEBS` found present. -/
def validateVolumeType (d : StaticData) (ebs : BlockDevice) : FieldError :=
  match ebs.VolumeType with
  | some v => validateStringEnum v "volumeType" d.VolumeTypeValues
  | none => []

/-- Method `NodeClassSpec.validateVolumeSize`, on the EBS descriptor that
`validateEBS` found present. `Cmp(x) == -1` is `<`, `Cmp(x) == 1` is `>`. -/
def validateVolumeSize (ebs : BlockDevice) : FieldError :=
  match ebs.SnapshotID, ebs.VolumeSize with
  | some _, none => []
  | none, none => ErrMissingField ["volumeSize"]
  | _, some size =>
    if size < minVolumeSize ∨ size > maxVolumeSize then
      ErrOutOfBoundsValue size minVolumeSize maxVolumeSize "volumeSize"
    else []

/-- Method `NodeClassSpec.validateEBS`. -/
def validateEBS (d : StaticData) (b : BlockDeviceMapping) : FieldError :=
  match b.EBS with
  | none => ErrMissingField ["ebs"]
  | some ebs =>
    (FieldError.Also [] ((validateVolumeType d ebs).ViaField "ebs")).Also
      ((validateVolumeSize ebs).ViaField "ebs")

/-- Method `NodeClassSpec.validateBlockDeviceMapping`. -/
def validateBlockDeviceMapping (d : StaticData) (b : BlockDeviceMapping) : FieldError :=
  (FieldError.Also [] (validateDeviceName b)).Also (validateEBS d b)

/-- Loop of `validateBlockDeviceMappings`:
`errs = errs.Also(err.ViaFieldIndex(blockDeviceMappingsPath, i))` for the
mappings from index `i` on. -/
def validateBlockDeviceMappingsLoop (d : StaticData) :
    Nat → List BlockDeviceMapping → FieldError → FieldError
  | _, [], errs => errs
  | i, b :: rest, errs =>
    validateBlockDeviceMappingsLoop d (i + 1) rest
      (errs.Also ((validateBlockDeviceMapping d b).ViaFieldIndex blockDeviceMappingsPath i))

/-- Method `NodeClassSpec.validateBlockDeviceMappings`. -/
def NodeClassSpec.validateBlockDeviceMappings (d : StaticData) (s : NodeClassSpec) :
    FieldError :=
  validateBlockDeviceMappingsLoop d 0 s.BlockDeviceMappings []

/-- Method `NodeClassSpec.validateUserData`; `lo.FromPtr` of an absent family is
the empty string. -/
def NodeClassSpec.validateUserData (d : StaticData) (s : NodeClassSpec) : FieldError :=
  match s.UserData with
  | none => []
  | some _ =>
    if s.AMIFamily.getD "" = d.AMIFamilyWindows2019 ∨
        s.AMIFamily.getD "" = d.AMIFamilyWindows2022 then
      FieldError.Also []
        (ErrGeneric (s.AMIFamily.getD "" ++
          " AMIFamily is not currently supported with custom userData") [userDataPath])
    else []

/-- Method `NodeClassSpec.validateAMIFamily`. -/
def NodeClassSpec.validateAMIFamily (d : StaticData) (s : NodeClassSpec) : FieldError :=
  match s.AMIFamily with
  | none => []
  | some family =>
    let errs : FieldError :=
      if family = d.AMIFamilyCustom ∧ s.AMISelectorTerms.length = 0 then
        FieldError.Also [] (ErrMissingField [amiSelectorTermsPath])
      else []
    errs.Also (validateStringEnum family amiFamilyPath d.SupportedAMIFamilies)

/-- Inner loop of `NodeClassSpec.validateTags` for one key: one `InvalidKeyName`
per restricted pattern that matches the key, its detail being
`fmt.Sprintf("tag contains in restricted tag matching %q", pattern.String())`,
where `quote` is what `%q` prints. -/
def validateRestrictedTag (quote : String → String) (k : String) : List Pattern → FieldError
  | [] => []
  | pattern :: rest =>
    (if pattern.MatchString k then
        ErrInvalidKeyName k "tags"
          ["tag contains in restricted tag matching " ++ quote pattern.source]
      else []) ++ validateRestrictedTag quote k rest

/-- Loop of `NodeClassSpec.validateTags` over the entries of the map. -/
def validateSpecTags (quote : String → String) (patterns : List Pattern) :
    TagMap → FieldError
  | [] => []
  | (k, v) :: rest =>
    ((if k = "" then
        ErrInvalidValue ("the tag with key : \x27\x27 and value : \x27" ++ v ++
          "\x27 is invalid because empty tag keys aren\x27t supported") "tags"
      else []) ++ validateRestrictedTag quote k patterns) ++
      validateSpecTags quote patterns rest

/-- Method `NodeClassSpec.validateTags`. -/
def NodeClassSpec.validateTags (d : StaticData) (s : NodeClassSpec) : FieldError :=
  validateSpecTags d.Quote d.RestrictedTagPatterns s.Tags

/-- Method `NodeClassSpec.validate`: the eight field validators, each qualified
under its field, merged in this order. -/
def NodeClassSpec.validate (d : StaticData) (s : NodeClassSpec) : FieldError :=
  (((((((FieldError.Also [] (s.validateSubnetSelectorTerms.ViaField subnetSelectorTermsPath)).Also
    (s.validateSecurityGroupSelectorTerms.ViaField securityGroupSelectorTermsPath)).Also
    (s.validateAMISelectorTerms.ViaField amiSelectorTermsPath)).Also
    ((s.validateMetadataOptions d).ViaField metadataOptionsPath)).Also
    ((s.validateAMIFamily d).ViaField amiFamilyPath)).Also
    ((s.validateBlockDeviceMappings d).ViaField blockDeviceMappingsPath)).Also
    ((s.validateUserData d).ViaField userDataPath)).Also
    ((s.validateTags d).ViaField tagsPath)

/-- Method `NodeClass.Validate`. The check `apis.ValidateObjectMetadata` is an
external function and is taken as the argument `validateObjectMetadata`. -/
def NodeClass.Validate {Meta : Type} (d : StaticData)
    (validateObjectMetadata : NodeClass Meta → FieldError) (a : NodeClass Meta) : FieldError :=
  (FieldError.Also [] ((validateObjectMetadata a).ViaField "metadata")).Also
    ((a.Spec.validate d).ViaField "spec")

/-! ## Selection modes and sample inputs -/

/-- Number of populated selection modes of a subnet term: non-empty tag map, ID. -/
def SubnetSelectorTerm.populatedModes (t : SubnetSelectorTerm) : Nat :=
  (if t.Tags = [] then 0 else 1) + (if t.ID = "" then 0 else 1)

/-- Number of populated selection modes of a security-group term: non-empty tag
map, ID, Name. -/
def SecurityGroupSelectorTerm.populatedModes (t : SecurityGroupSelectorTerm) : Nat :=
  (if t.Tags = [] then 0 else 1) + (if t.ID = "" then 0 else 1) +
    (if t.Name = "" then 0 else 1)

/-- Number of populated selection modes of an AMI term: non-empty tag map, ID,
Name, SSM. -/
def AMISelectorTerm.populatedModes (t : AMISelectorTerm) : Nat :=
  (if t.Tags = [] then 0 else 1) + (if t.ID = "" then 0 else 1) +
    (if t.Name = "" then 0 else 1) + (if t.SSM = "" then 0 else 1)

/-- What `%q` prints for a text of printable ASCII characters: the text in
double quotes, with a backslash in front of every double quote (character 34)
and every backslash (character 92). -/
def sampleQuote (s : String) : String :=
  String.mk ([Char.ofNat 34] ++
    (s.data.flatMap fun c =>
      if c = Char.ofNat 34 ∨ c = Char.ofNat 92 then [Char.ofNat 92, c] else [c]) ++
    [Char.ofNat 34])

/-- Sample static data: the family names of the package, the value tables of
the EC2 SDK, and two restricted patterns that both match the key
`karpenter.sh/managed-by`. -/
def sampleData : StaticData where
  Quote := sampleQuote
  AMIFamilyCustom := "Custom"
  AMIFamilyWindows2019 := "Windows2019"
  AMIFamilyWindows2022 := "Windows2022"
  SupportedAMIFamilies := ["Bottlerocket", "AL2", "Ubuntu", "Windows2019", "Windows2022", "Custom"]
  RestrictedTagPatterns :=
    [⟨"^karpenter\\.sh/managed-by$", fun k => decide (k = "karpenter.sh/managed-by")⟩,
     ⟨"^karpenter\\.sh/(managed-by|nodepool)$",
      fun k => decide (k = "karpenter.sh/managed-by") || decide (k = "karpenter.sh/nodepool")⟩]
  EndpointStateValues := ["disabled", "enabled"]
  ProtocolIpv6Values := ["disabled", "enabled"]
  HttpTokensStateValues := ["optional", "required"]
  VolumeTypeValues := ["standard", "io1", "io2", "gp2", "sc1", "st1", "gp3"]

/-- A spec with every sequence empty and every optional field absent. -/
def emptySpec : NodeClassSpec where
  SubnetSelectorTerms := []
  SecurityGroupSelectorTerms := []
  AMISelectorTerms := []
  AMIFamily := none
  UserData := none
  Tags := []
  MetadataOptions := none
  BlockDeviceMappings := []

/-- An AMI term selecting by Name and by SSM parameter at once, ID empty. -/
def amiNameAndSSM : AMISelectorTerm where
  Tags := []
  ID := ""
  Name := "my-ami"
  SSM := "/aws/service/ami/latest"
  Owner := ""

/-- An AMI term selecting by tags and by Name at once, ID empty. -/
def amiTagsAndName : AMISelectorTerm where
  Tags := [("team", "infra")]
  ID := ""
  Name := "my-ami"
  SSM := ""
  Owner := ""

/-- An AMI term whose only selection mode is ID, with Owner also set. -/
def amiIDAndOwner : AMISelectorTerm where
  Tags := []
  ID := "ami-0123"
  Name := ""
  SSM := ""
  Owner := "self"

/-- An optional enumerated string is invalid when it is present and is not a
member of its table. -/
def enumFieldInvalid (o : Option String) (table : List String) : Bool :=
  match o with
  | none => false
  | some v => decide (v ∉ table)

/-- An optional hop limit is invalid when it is present and outside 1..64. -/
def hopLimitInvalid (o : Option Int) : Bool :=
  match o with
  | none => false
  | some limit => decide (limit < 1 ∨ 64 < limit)

/-- A spec whose metadata options hold only the given hop limit. -/
def hopLimitSpec (limit : Int) : NodeClassSpec :=
  { emptySpec with MetadataOptions := some ⟨none, none, some limit, none⟩ }

/-- The accepted configuration of the end-to-end property: one subnet term by
ID, one security-group term by tags, nothing else. -/
def acceptedSpec : NodeClassSpec :=
  { emptySpec with
    SubnetSelectorTerms := [⟨[], "subnet-0123"⟩]
    SecurityGroupSelectorTerms := [⟨[("karpenter.sh/discovery", "cluster")], "", ""⟩] }

/-- An AMI term whose only populated field is Owner. -/
def amiOwnerOnly : AMISelectorTerm where
  Tags := []
  ID := ""
  Name := ""
  SSM := ""
  Owner := "self"

/-- Two subnet terms: the first has a tag with an empty value, the second is a
valid term by ID. -/
def twoSubnetTermsSpec : NodeClassSpec :=
  { acceptedSpec with SubnetSelectorTerms := [⟨[("env", "")], ""⟩, ⟨[], "subnet-0123"⟩] }

/-- Two security-group terms and two AMI terms, each with the same tag with an
empty value. -/
def twoTermsSameErrorSpec : NodeClassSpec :=
  { acceptedSpec with
    SecurityGroupSelectorTerms := [⟨[("env", "")], "", ""⟩, ⟨[("env", "")], "", ""⟩]
    AMISelectorTerms := [⟨[("env", "")], "", "", "", ""⟩, ⟨[("env", "")], "", "", "", ""⟩] }

/-- Two block device mappings: the first without device name and with an EBS
descriptor that has an unknown volume type and neither size nor snapshot, the
second without EBS descriptor. -/
def blockDeviceSpec : NodeClassSpec :=
  { acceptedSpec with
    BlockDeviceMappings := [⟨none, some ⟨some "bogus", none, none⟩⟩, ⟨some "/dev/xvdb", none⟩] }

/-- User data together with the Windows2019 family, and a tag with an empty
key. -/
def windowsUserDataSpec : NodeClassSpec :=
  { acceptedSpec with
    UserData := some "echo", AMIFamily := some "Windows2019", Tags := [("", "v")] }

/-- An AMI family that is not supported, and a restricted tag key. -/
def unknownFamilySpec : NodeClassSpec :=
  { acceptedSpec with AMIFamily := some "Solaris", Tags := [("karpenter.sh/nodepool", "x")] }

/-- Two specs that differ at most in the order in which the entries of their
tag maps (the spec-level map and the map of every selector term) are visited. -/
def NodeClassSpec.sameUpToMapOrder (s s' : NodeClassSpec) : Prop :=
  List.Forall₂ (fun t t' : SubnetSelectorTerm => t.Tags.Perm t'.Tags ∧ t.ID = t'.ID)
    s.SubnetSelectorTerms s'.SubnetSelectorTerms ∧
  List.Forall₂
    (fun t t' : SecurityGroupSelectorTerm =>
      t.Tags.Perm t'.Tags ∧ t.ID = t'.ID ∧ t.Name = t'.Name)
    s.SecurityGroupSelectorTerms s'.SecurityGroupSelectorTerms ∧
  List.Forall₂
    (fun t t' : AMISelectorTerm =>
      t.Tags.Perm t'.Tags ∧ t.ID = t'.ID ∧ t.Name = t'.Name ∧ t.SSM = t'.SSM ∧
        t.Owner = t'.Owner)
    s.AMISelectorTerms s'.AMISelectorTerms ∧
  s.AMIFamily = s'.AMIFamily ∧ s.UserData = s'.UserData ∧ s.Tags.Perm s'.Tags ∧
  s.MetadataOptions = s'.MetadataOptions ∧ s.BlockDeviceMappings = s'.BlockDeviceMappings

/-- A spec with two invalid tags in the spec-level map and in a subnet term. -/
def taggedSpec : NodeClassSpec :=
  { acceptedSpec with
    SubnetSelectorTerms := [⟨[("a", ""), ("", "b")], ""⟩]
    Tags := [("", "v"), ("karpenter.sh/nodepool", "x")] }

/-- The spec `taggedSpec` with both maps visited in the other order. -/
def taggedSpecReordered : NodeClassSpec :=
  { acceptedSpec with
    SubnetSelectorTerms := [⟨[("", "b"), ("a", "")], ""⟩]
    Tags := [("karpenter.sh/nodepool", "x"), ("", "v")] }

/-! ## The error value: merge and qualification -/

theorem Also_eq_append (fe e : FieldError) : fe.Also e = fe ++ e := rfl

theorem ViaField_nil (name : String) : FieldError.ViaField [] name = [] := rfl

theorem ViaField_append (a b : FieldError) (name : String) :
    FieldError.ViaField (a ++ b) name = FieldError.ViaField a name ++ FieldError.ViaField b name := by
  simp [FieldError.ViaField]

theorem ViaField_length (fe : FieldError) (name : String) :
    (fe.ViaField name).length = fe.length := by
  simp [FieldError.ViaField]

theorem ViaField_eq_nil (fe : FieldError) (name : String) :
    fe.ViaField name = [] ↔ fe = [] := by
  simp [FieldError.ViaField]

theorem ViaIndex_nil (i : Nat) : FieldError.ViaIndex [] i = [] := rfl

theorem ViaIndex_append (a b : FieldError) (i : Nat) :
    FieldError.ViaIndex (a ++ b) i = FieldError.ViaIndex a i ++ FieldError.ViaIndex b i := by
  simp [FieldError.ViaIndex]

theorem ViaIndex_length (fe : FieldError) (i : Nat) :
    (fe.ViaIndex i).length = fe.length := by
  simp [FieldError.ViaIndex]

theorem ViaIndex_eq_nil (fe : FieldError) (i : Nat) :
    fe.ViaIndex i = [] ↔ fe = [] := by
  simp [FieldError.ViaIndex]

/-- Qualification under a field keeps the number of leaves of any kind that is
read off the message alone. -/
theorem countP_ViaField (p : Leaf → Bool) (hp : ∀ m ps qs, p ⟨m, ps⟩ = p ⟨m, qs⟩)
    (fe : FieldError) (name : String) : (fe.ViaField name).countP p = fe.countP p := by
  induction fe with
  | nil => rfl
  | cons l rest ih =>
    have h : FieldError.ViaField (l :: rest) name =
        ⟨l.message, l.paths.map fun q => pathOf name ++ q⟩ :: FieldError.ViaField rest name := rfl
    rw [h, List.countP_cons, List.countP_cons, ih, hp l.message _ l.paths]

/-- Qualification under an index keeps the number of leaves of any kind that is
read off the message alone. -/
theorem countP_ViaIndex (p : Leaf → Bool) (hp : ∀ m ps qs, p ⟨m, ps⟩ = p ⟨m, qs⟩)
    (fe : FieldError) (i : Nat) : (fe.ViaIndex i).countP p = fe.countP p := by
  induction fe with
  | nil => rfl
  | cons l rest ih =>
    have h : FieldError.ViaIndex (l :: rest) i =
        ⟨l.message, l.paths.map fun q => Seg.index i :: q⟩ :: FieldError.ViaIndex rest i := rfl
    rw [h, List.countP_cons, List.countP_cons, ih, hp l.message _ l.paths]

/-! ## The entry point -/

/-- C1: the result of `Validate` is the leaves of the metadata check qualified
under `metadata`, followed by the leaves of the eight field validators, each
qualified under its field and then under `spec`, in the order subnet terms,
security-group terms, AMI terms, metadata options, AMI family, block device
mappings, user data, tags. Nothing is dropped whatever the other validators
return: the number of leaves is the sum of the nine counts, and the result is
empty exactly when all nine are. -/
theorem Validate_collects_every_validator {Meta : Type} (d : StaticData)
    (validateObjectMetadata : NodeClass Meta → FieldError) (a : NodeClass Meta) :
    NodeClass.Validate d validateObjectMetadata a =
        (validateObjectMetadata a).ViaField "metadata" ++
        ((a.Spec.validateSubnetSelectorTerms.ViaField subnetSelectorTermsPath).ViaField "spec" ++
        ((a.Spec.validateSecurityGroupSelectorTerms.ViaField
            securityGroupSelectorTermsPath).ViaField "spec" ++
        ((a.Spec.validateAMISelectorTerms.ViaField amiSelectorTermsPath).ViaField "spec" ++
        (((a.Spec.validateMetadataOptions d).ViaField metadataOptionsPath).ViaField "spec" ++
        (((a.Spec.validateAMIFamily d).ViaField amiFamilyPath).ViaField "spec" ++
        (((a.Spec.validateBlockDeviceMappings d).ViaField blockDeviceMappingsPath).ViaField "spec" ++
        (((a.Spec.validateUserData d).ViaField userDataPath).ViaField "spec" ++
        ((a.Spec.validateTags d).ViaField tagsPath).ViaField "spec")))))))
      ∧ (NodeClass.Validate d validateObjectMetadata a).length =
        (validateObjectMetadata a).length +
        a.Spec.validateSubnetSelectorTerms.length +
        a.Spec.validateSecurityGroupSelectorTerms.length +
        a.Spec.validateAMISelectorTerms.length +
        (a.Spec.validateMetadataOptions d).length +
        (a.Spec.validateAMIFamily d).length +
        (a.Spec.validateBlockDeviceMappings d).length +
        (a.Spec.validateUserData d).length +
        (a.Spec.validateTags d).length
      ∧ (NodeClass.Validate d validateObjectMetadata a = [] ↔
        validateObjectMetadata a = [] ∧
        a.Spec.validateSubnetSelectorTerms = [] ∧
        a.Spec.validateSecurityGroupSelectorTerms = [] ∧
        a.Spec.validateAMISelectorTerms = [] ∧
        a.Spec.validateMetadataOptions d = [] ∧
        a.Spec.validateAMIFamily d = [] ∧
        a.Spec.validateBlockDeviceMappings d = [] ∧
        a.Spec.validateUserData d = [] ∧
        a.Spec.validateTags d = []) := by
  refine ⟨?_, ?_, ?_⟩
  · simp only [NodeClass.Validate, NodeClassSpec.validate, Also_eq_append, ViaField_append,
      List.nil_append, List.append_assoc]
  · simp only [NodeClass.Validate, NodeClassSpec.validate, Also_eq_append, ViaField_append,
      List.nil_append, List.length_append, ViaField_length]
    omega
  · simp only [NodeClass.Validate, NodeClassSpec.validate, Also_eq_append, ViaField_append,
      List.nil_append, List.append_eq_nil, ViaField_eq_nil, and_assoc]

/-! ## Subnet and security-group terms -/

/-- C2: for a spec with no subnet terms and no security-group terms, spec
validation yields the two `MissingOneOf` leaves, and neither carries a path: the
leaves are built by `ErrMissingOneOf()` without a field name, and qualification
under `subnetSelectorTerms` / `securityGroupSelectorTerms` has no path to put
the name in front of. No leaf of the result is located at either path. -/
theorem validate_emptySpec_missingOneOf_without_path :
    NodeClassSpec.validate sampleData emptySpec =
        [⟨.missingOneOf, []⟩, ⟨.missingOneOf, []⟩]
      ∧ ∀ l ∈ NodeClassSpec.validate sampleData emptySpec,
          [Seg.field "subnetSelectorTerms"] ∉ l.paths ∧
          [Seg.field "securityGroupSelectorTerms"] ∉ l.paths := by
  have h : NodeClassSpec.validate sampleData emptySpec =
      [⟨.missingOneOf, []⟩, ⟨.missingOneOf, []⟩] := by decide
  refine ⟨h, ?_⟩
  rw [h]
  decide

/-- The leaves found by the package-level `validateTags` are never `Generic`. -/
theorem validateTags_not_generic (m : TagMap) :
    ∀ l ∈ validateTags m, l.isGeneric = false := by
  induction m with
  | nil => simp [validateTags]
  | cons e rest ih =>
    obtain ⟨k, v⟩ := e
    intro l hl
    simp only [validateTags, List.mem_append] at hl
    rcases hl with (hl | hl) | hl
    · split at hl
      · simp only [ErrInvalidKeyName, List.mem_singleton] at hl
        subst hl
        rfl
      · simp at hl
    · split at hl
      · simp only [ErrInvalidValue, List.mem_singleton] at hl
        subst hl
        rfl
      · simp at hl
    · exact ih l hl

theorem isGotNone_le_isGeneric (l : Leaf) (h : l.isGeneric = false) : l.isGotNone = false := by
  obtain ⟨m, ps⟩ := l
  cases m <;> simp_all [Leaf.isGeneric, Leaf.isGotNone]

theorem isMutuallyExclusive_le_isGeneric (l : Leaf) (h : l.isGeneric = false) :
    l.isMutuallyExclusive = false := by
  obtain ⟨m, ps⟩ := l
  cases m <;> simp_all [Leaf.isGeneric, Leaf.isMutuallyExclusive]

/-- The tag errors of a selector term hold no "got none" leaf. -/
theorem countP_isGotNone_tags (m : TagMap) (name : String) :
    ((validateTags m).ViaField name).countP Leaf.isGotNone = 0 := by
  rw [countP_ViaField Leaf.isGotNone (fun _ _ _ => rfl), List.countP_eq_zero]
  intro l hl
  simp [isGotNone_le_isGeneric l (validateTags_not_generic m l hl)]

/-- The tag errors of a selector term hold no mutual-exclusivity leaf. -/
theorem countP_isMutuallyExclusive_tags (m : TagMap) (name : String) :
    ((validateTags m).ViaField name).countP Leaf.isMutuallyExclusive = 0 := by
  rw [countP_ViaField Leaf.isMutuallyExclusive (fun _ _ _ => rfl), List.countP_eq_zero]
  intro l hl
  simp [isMutuallyExclusive_le_isGeneric l (validateTags_not_generic m l hl)]

/-- Number of "got none" leaves of a subnet term: one exactly when neither
selection mode is populated. -/
theorem subnetTerm_countP_isGotNone (t : SubnetSelectorTerm) :
    t.validate.countP Leaf.isGotNone = if t.Tags = [] ∧ t.ID = "" then 1 else 0 := by
  obtain ⟨tags, id⟩ := t
  by_cases hi : id = "" <;> by_cases ht : tags = [] <;>
    simp [SubnetSelectorTerm.validate, Also_eq_append, countP_isGotNone_tags, hi, ht, ErrGeneric,
      Leaf.isGotNone, idExclusiveMsg, nameExclusiveMsg, List.length_pos]

/-- Number of mutual-exclusivity leaves of a subnet term: one exactly when both
selection modes are populated. -/
theorem subnetTerm_countP_isMutuallyExclusive (t : SubnetSelectorTerm) :
    t.validate.countP Leaf.isMutuallyExclusive =
      if t.Tags ≠ [] ∧ t.ID ≠ "" then 1 else 0 := by
  obtain ⟨tags, id⟩ := t
  by_cases hi : id = "" <;> by_cases ht : tags = [] <;>
    simp [SubnetSelectorTerm.validate, Also_eq_append, countP_isMutuallyExclusive_tags, hi, ht,
      ErrGeneric, Leaf.isMutuallyExclusive, idExclusiveMsg, nameExclusiveMsg, List.length_pos]

/-- Number of "got none" leaves of a security-group term: one exactly when no
selection mode is populated. -/
theorem securityGroupTerm_countP_isGotNone (t : SecurityGroupSelectorTerm) :
    t.validate.countP Leaf.isGotNone =
      if t.Tags = [] ∧ t.ID = "" ∧ t.Name = "" then 1 else 0 := by
  obtain ⟨tags, id, name⟩ := t
  by_cases hi : id = "" <;> by_cases hn : name = "" <;> by_cases ht : tags = [] <;>
    simp [SecurityGroupSelectorTerm.validate, Also_eq_append, countP_isGotNone_tags, hi, hn, ht,
      ErrGeneric, Leaf.isGotNone, idExclusiveMsg, nameExclusiveMsg, List.length_pos]

/-- Number of mutual-exclusivity leaves of a security-group term: one exactly
when ID or Name is populated together with another selection mode. -/
theorem securityGroupTerm_countP_isMutuallyExclusive (t : SecurityGroupSelectorTerm) :
    t.validate.countP Leaf.isMutuallyExclusive =
      if (t.ID ≠ "" ∧ (t.Tags ≠ [] ∨ t.Name ≠ "")) ∨ (t.Name ≠ "" ∧ t.Tags ≠ []) then 1
      else 0 := by
  obtain ⟨tags, id, name⟩ := t
  by_cases hi : id = "" <;> by_cases hn : name = "" <;> by_cases ht : tags = [] <;>
    simp [SecurityGroupSelectorTerm.validate, Also_eq_append, countP_isMutuallyExclusive_tags,
      hi, hn, ht, ErrGeneric, Leaf.isMutuallyExclusive, idExclusiveMsg, nameExclusiveMsg,
      List.length_pos]

/-- C3: a subnet term (modes: non-empty tag map, ID) and a security-group term
(modes: non-empty tag map, ID, Name) with exactly one populated mode yield
neither the "at least one, got none" error nor a mutual-exclusivity error; with
two or more populated modes they yield exactly one mutual-exclusivity error and
no "got none" error. -/
theorem selector_term_exactly_one_mode (t : SubnetSelectorTerm)
    (g : SecurityGroupSelectorTerm) :
    (t.populatedModes = 1 →
        t.validate.countP Leaf.isGotNone = 0 ∧ t.validate.countP Leaf.isMutuallyExclusive = 0) ∧
    (2 ≤ t.populatedModes →
        t.validate.countP Leaf.isMutuallyExclusive = 1 ∧ t.validate.countP Leaf.isGotNone = 0) ∧
    (g.populatedModes = 1 →
        g.validate.countP Leaf.isGotNone = 0 ∧ g.validate.countP Leaf.isMutuallyExclusive = 0) ∧
    (2 ≤ g.populatedModes →
        g.validate.countP Leaf.isMutuallyExclusive = 1 ∧ g.validate.countP Leaf.isGotNone = 0) := by
  rw [subnetTerm_countP_isGotNone, subnetTerm_countP_isMutuallyExclusive,
    securityGroupTerm_countP_isGotNone,
    securityGroupTerm_countP_isMutuallyExclusive]
  obtain ⟨tags, id⟩ := t
  obtain ⟨gtags, gid, gname⟩ := g
  refine ⟨?_, ?_, ?_, ?_⟩
  · by_cases hi : id = "" <;> by_cases ht : tags = [] <;>
      simp [SubnetSelectorTerm.populatedModes, hi, ht]
  · by_cases hi : id = "" <;> by_cases ht : tags = [] <;>
      simp [SubnetSelectorTerm.populatedModes, hi, ht]
  · by_cases hi : gid = "" <;> by_cases hn : gname = "" <;> by_cases ht : gtags = [] <;>
      simp [SecurityGroupSelectorTerm.populatedModes, hi, hn, ht]
  · by_cases hi : gid = "" <;> by_cases hn : gname = "" <;> by_cases ht : gtags = [] <;>
      simp [SecurityGroupSelectorTerm.populatedModes, hi, hn, ht]

/-- Witness of C3: an ID-only subnet term, a subnet term with tags and ID, a
Name-only security-group term, and a security-group term with tags and Name. -/
theorem selector_term_exactly_one_mode_witness :
    ((SubnetSelectorTerm.mk [] "subnet-1").validate.countP Leaf.isGotNone = 0 ∧
      (SubnetSelectorTerm.mk [] "subnet-1").validate.countP Leaf.isMutuallyExclusive = 0) ∧
    ((SubnetSelectorTerm.mk [("a", "b")] "subnet-1").validate.countP
        Leaf.isMutuallyExclusive = 1 ∧
      (SubnetSelectorTerm.mk [("a", "b")] "subnet-1").validate.countP Leaf.isGotNone = 0) ∧
    ((SecurityGroupSelectorTerm.mk [] "" "sg").validate.countP Leaf.isGotNone = 0 ∧
      (SecurityGroupSelectorTerm.mk [] "" "sg").validate.countP Leaf.isMutuallyExclusive = 0) ∧
    ((SecurityGroupSelectorTerm.mk [("a", "b")] "" "sg").validate.countP
        Leaf.isMutuallyExclusive = 1 ∧
      (SecurityGroupSelectorTerm.mk [("a", "b")] "" "sg").validate.countP Leaf.isGotNone = 0) :=
  ⟨(selector_term_exactly_one_mode ⟨[], "subnet-1"⟩ ⟨[], "", "sg"⟩).1 (by decide),
   (selector_term_exactly_one_mode ⟨[("a", "b")], "subnet-1"⟩ ⟨[], "", "sg"⟩).2.1 (by decide),
   (selector_term_exactly_one_mode ⟨[], "subnet-1"⟩ ⟨[], "", "sg"⟩).2.2.1 (by decide),
   (selector_term_exactly_one_mode ⟨[], "subnet-1"⟩ ⟨[("a", "b")], "", "sg"⟩).2.2.2 (by decide)⟩

/-! ## AMI terms -/

/-- Counterexample to C4: with ID empty, a term with Name and SSM populated and a
term with tags and Name populated (two selection modes each) validate to the
empty value, so no mutual-exclusivity error is emitted; and a term whose only
selection mode is ID, with Owner set, gets a mutual-exclusivity error. -/
theorem ami_exclusivity_only_involves_id :
    (2 ≤ amiNameAndSSM.populatedModes ∧ amiNameAndSSM.validate = []) ∧
    (2 ≤ amiTagsAndName.populatedModes ∧ amiTagsAndName.validate = []) ∧
    (amiIDAndOwner.populatedModes = 1 ∧
      amiIDAndOwner.validate.countP Leaf.isMutuallyExclusive = 1) := by
  decide

/-- Number of mutual-exclusivity leaves of an AMI term: one exactly when ID is
populated together with tags, Name, SSM or Owner. -/
theorem amiTerm_countP_isMutuallyExclusive (t : AMISelectorTerm) :
    t.validate.countP Leaf.isMutuallyExclusive =
      if t.ID ≠ "" ∧ (t.Tags ≠ [] ∨ t.Name ≠ "" ∨ t.SSM ≠ "" ∨ t.Owner ≠ "") then 1 else 0 := by
  obtain ⟨tags, id, name, ssm, owner⟩ := t
  by_cases hi : id = "" <;> by_cases hn : name = "" <;> by_cases ht : tags = [] <;>
    by_cases hs : ssm = "" <;> by_cases ho : owner = "" <;>
    simp [AMISelectorTerm.validate, Also_eq_append, countP_isMutuallyExclusive_tags,
      hi, hn, ht, hs, ho, ErrGeneric, Leaf.isMutuallyExclusive, idExclusiveMsg, nameExclusiveMsg,
      List.length_pos]

/-- C4 as amended: an AMI term yields exactly one mutual-exclusivity error when
ID is populated together with at least one of non-empty tag map, Name, SSM or
Owner, and none otherwise; in particular none when ID is empty, however many of
tags, Name and SSM are populated, and none when ID is the only populated field. -/
theorem ami_exclusivity_error_iff_id_combined (t : AMISelectorTerm) :
    t.validate.countP Leaf.isMutuallyExclusive =
      if t.ID ≠ "" ∧ (t.Tags ≠ [] ∨ t.Name ≠ "" ∨ t.SSM ≠ "" ∨ t.Owner ≠ "") then 1 else 0 :=
  amiTerm_countP_isMutuallyExclusive t

/-! ## Block device mappings -/

/-- C5: on a present EBS descriptor, `validateVolumeSize` returns no error when
VolumeSize is absent and SnapshotID present; `MissingField(volumeSize)` when both
are absent; `OutOfBounds` when VolumeSize is below 10^9 or above 64 * 10^12,
whether or not SnapshotID is present; and no error when
10^9 <= VolumeSize <= 64 * 10^12, both bounds included. -/
theorem validateVolumeSize_cases (ebs : BlockDevice) :
    (ebs.VolumeSize = none → ebs.SnapshotID ≠ none → validateVolumeSize ebs = []) ∧
    (ebs.VolumeSize = none → ebs.SnapshotID = none →
        validateVolumeSize ebs = [⟨.missingField, [[Seg.field "volumeSize"]]⟩]) ∧
    (∀ size : ℚ, ebs.VolumeSize = some size → (size < 10 ^ 9 ∨ 64 * 10 ^ 12 < size) →
        validateVolumeSize ebs =
          [⟨.outOfBounds size (10 ^ 9) (64 * 10 ^ 12), [[Seg.field "volumeSize"]]⟩]) ∧
    (∀ size : ℚ, ebs.VolumeSize = some size → 10 ^ 9 ≤ size → size ≤ 64 * 10 ^ 12 →
        validateVolumeSize ebs = []) := by
  obtain ⟨vt, vs, sn⟩ := ebs
  refine ⟨?_, ?_, ?_, ?_⟩
  · intro h1 h2
    simp only at h1 h2
    subst h1
    cases sn with
    | none => exact absurd rfl h2
    | some _ => rfl
  · intro h1 h2
    simp only at h1 h2
    subst h1 h2
    simp [validateVolumeSize, ErrMissingField, pathOf]
  · intro size h1 h2
    simp only at h1
    subst h1
    have h3 : size < minVolumeSize ∨ size > maxVolumeSize := by
      simpa [minVolumeSize, maxVolumeSize] using h2
    cases sn <;>
      (simp only [validateVolumeSize, if_pos h3, ErrOutOfBoundsValue]
       simp [pathOf, minVolumeSize, maxVolumeSize])
  · intro size h1 h2 h3
    simp only at h1
    subst h1
    have h4 : ¬ (size < minVolumeSize ∨ size > maxVolumeSize) := by
      simp only [minVolumeSize, maxVolumeSize, one_mul, not_or, not_lt, gt_iff_lt]
      exact ⟨h2, h3⟩
    cases sn <;> simp only [validateVolumeSize, if_neg h4]

/-- Witness of C5: a snapshot without size; neither; 512 MB and 100 TB (with a
snapshot) rejected; 1 GB, 2 GB and 64 TB accepted. -/
theorem validateVolumeSize_cases_witness :
    validateVolumeSize ⟨none, none, some "snap-1"⟩ = [] ∧
    validateVolumeSize ⟨none, none, none⟩ = [⟨.missingField, [[Seg.field "volumeSize"]]⟩] ∧
    validateVolumeSize ⟨none, some (512 * 10 ^ 6), none⟩ =
      [⟨.outOfBounds (512 * 10 ^ 6) (10 ^ 9) (64 * 10 ^ 12), [[Seg.field "volumeSize"]]⟩] ∧
    validateVolumeSize ⟨none, some (100 * 10 ^ 12), some "snap-1"⟩ =
      [⟨.outOfBounds (100 * 10 ^ 12) (10 ^ 9) (64 * 10 ^ 12), [[Seg.field "volumeSize"]]⟩] ∧
    validateVolumeSize ⟨none, some (1 * 10 ^ 9), none⟩ = [] ∧
    validateVolumeSize ⟨none, some (2 * 10 ^ 9), none⟩ = [] ∧
    validateVolumeSize ⟨none, some (64 * 10 ^ 12), none⟩ = [] :=
  ⟨(validateVolumeSize_cases ⟨none, none, some "snap-1"⟩).1 rfl (by simp),
   (validateVolumeSize_cases ⟨none, none, none⟩).2.1 rfl rfl,
   (validateVolumeSize_cases ⟨none, some (512 * 10 ^ 6), none⟩).2.2.1 _ rfl (by norm_num),
   (validateVolumeSize_cases ⟨none, some (100 * 10 ^ 12), some "snap-1"⟩).2.2.1 _ rfl
     (by norm_num),
   (validateVolumeSize_cases ⟨none, some (1 * 10 ^ 9), none⟩).2.2.2 _ rfl
     (by norm_num) (by norm_num),
   (validateVolumeSize_cases ⟨none, some (2 * 10 ^ 9), none⟩).2.2.2 _ rfl
     (by norm_num) (by norm_num),
   (validateVolumeSize_cases ⟨none, some (64 * 10 ^ 12), none⟩).2.2.2 _ rfl
     (by norm_num) (by norm_num)⟩

/-- Result of `validateStringEnum`: empty, or one `InvalidValue` leaf at `field`. -/
theorem validateStringEnum_eq (value field : String) (validValues : List String) :
    validateStringEnum value field validValues =
      if value ∈ validValues then []
      else [⟨.invalidValue (value ++ " not in " ++ ", ".intercalate validValues),
              [pathOf field]⟩] := by
  by_cases h : value ∈ validValues
  · have h2 : validValues.any (fun validValue => decide (value = validValue)) = true := by
      simp only [List.any_eq_true, decide_eq_true_eq]
      exact ⟨value, h, rfl⟩
    simp [validateStringEnum, h, h2]
  · have h2 : ¬ validValues.any (fun validValue => decide (value = validValue)) = true := by
      simp only [List.any_eq_true, decide_eq_true_eq, not_exists, not_and]
      intro x hx hv
      exact h (hv ▸ hx)
    simp [validateStringEnum, h, h2, ErrInvalidValue]

/-- C6: `validateBlockDeviceMapping` reports `MissingField("deviceName")` exactly
when DeviceName is absent and `MissingField("ebs")` exactly when the EBS
descriptor is absent; with both absent it reports exactly these two; with EBS
absent the result is the device-name check followed by the `ebs` leaf, so no
volume-type or volume-size error is reported. -/
theorem validateBlockDeviceMapping_missing_fields (d : StaticData) (b : BlockDeviceMapping) :
    ((⟨.missingField, [[Seg.field "deviceName"]]⟩ : Leaf) ∈ validateBlockDeviceMapping d b ↔
        b.DeviceName = none) ∧
    ((⟨.missingField, [[Seg.field "ebs"]]⟩ : Leaf) ∈ validateBlockDeviceMapping d b ↔
        b.EBS = none) ∧
    (b.DeviceName = none → b.EBS = none →
        validateBlockDeviceMapping d b =
          [⟨.missingField, [[Seg.field "deviceName"]]⟩, ⟨.missingField, [[Seg.field "ebs"]]⟩]) ∧
    (b.EBS = none →
        validateBlockDeviceMapping d b =
          validateDeviceName b ++ [⟨.missingField, [[Seg.field "ebs"]]⟩]) := by
  obtain ⟨dn, ebs⟩ := b
  cases dn <;> cases ebs with
  | none =>
    simp [validateBlockDeviceMapping, validateDeviceName, validateEBS, Also_eq_append,
      ErrMissingField, pathOf]
  | some e =>
    obtain ⟨vt, vs, sn⟩ := e
    cases vt <;> cases vs <;> cases sn <;>
      simp [validateBlockDeviceMapping, validateDeviceName, validateEBS, Also_eq_append,
        ErrMissingField, pathOf, validateVolumeType, validateVolumeSize, validateStringEnum_eq,
        FieldError.ViaField, ErrOutOfBoundsValue]

/-- Witness of C6: a mapping with neither DeviceName nor EBS. -/
theorem validateBlockDeviceMapping_missing_fields_witness :
    validateBlockDeviceMapping sampleData ⟨none, none⟩ =
        [⟨.missingField, [[Seg.field "deviceName"]]⟩, ⟨.missingField, [[Seg.field "ebs"]]⟩] ∧
    validateBlockDeviceMapping sampleData ⟨some "/dev/xvda", none⟩ =
        validateDeviceName ⟨some "/dev/xvda", none⟩ ++ [⟨.missingField, [[Seg.field "ebs"]]⟩] :=
  ⟨(validateBlockDeviceMapping_missing_fields sampleData ⟨none, none⟩).2.2.1 rfl rfl,
   (validateBlockDeviceMapping_missing_fields sampleData ⟨some "/dev/xvda", none⟩).2.2.2 rfl⟩

/-! ## AMI family and user data -/

/-- C7: `validateAMIFamily` returns empty when AMIFamily is absent; reports
`MissingField("amiSelectorTerms")` exactly when the family is the Custom
sentinel and there is no AMI selector term; reports an `InvalidValue` exactly
when the family is present and not in `SupportedAMIFamilies`; and is empty
exactly when the family is absent, or supported and not (Custom with no AMI
selector term). -/
theorem validateAMIFamily_cases (d : StaticData) (s : NodeClassSpec) :
    (s.AMIFamily = none → s.validateAMIFamily d = []) ∧
    ((⟨.missingField, [[Seg.field "amiSelectorTerms"]]⟩ : Leaf) ∈ s.validateAMIFamily d ↔
        s.AMIFamily = some d.AMIFamilyCustom ∧ s.AMISelectorTerms = []) ∧
    ((∃ l ∈ s.validateAMIFamily d, l.isInvalidValue = true) ↔
        ∃ f, s.AMIFamily = some f ∧ f ∉ d.SupportedAMIFamilies) ∧
    (s.validateAMIFamily d = [] ↔
        s.AMIFamily = none ∨
        ∃ f, s.AMIFamily = some f ∧ f ∈ d.SupportedAMIFamilies ∧
          ¬ (f = d.AMIFamilyCustom ∧ s.AMISelectorTerms = [])) := by
  cases hf : s.AMIFamily with
  | none => simp [NodeClassSpec.validateAMIFamily, hf]
  | some f =>
    by_cases hc : f = d.AMIFamilyCustom <;> by_cases ht : s.AMISelectorTerms = [] <;>
      by_cases hs : f ∈ d.SupportedAMIFamilies <;>
      simp [NodeClassSpec.validateAMIFamily, hf, hc, ht, hs, Also_eq_append, ErrMissingField,
        validateStringEnum_eq, pathOf, amiSelectorTermsPath, amiFamilyPath, Leaf.isInvalidValue,
        List.length_eq_zero, Ne.symm] <;>
      simp_all

/-- Witness of C7: a spec without AMIFamily. -/
theorem validateAMIFamily_cases_witness : emptySpec.validateAMIFamily sampleData = [] :=
  (validateAMIFamily_cases sampleData emptySpec).1 rfl

/-- C8: with Windows sentinels that are family names (non-empty strings),
`validateUserData` yields exactly one leaf, a `Generic` one, when UserData is
present and AMIFamily is present and equal to Windows2019 or Windows2022, and
yields nothing in every other case. -/
theorem validateUserData_cases (d : StaticData) (s : NodeClassSpec)
    (h19 : d.AMIFamilyWindows2019 ≠ "") (h22 : d.AMIFamilyWindows2022 ≠ "") :
    ((s.UserData ≠ none ∧
        (s.AMIFamily = some d.AMIFamilyWindows2019 ∨ s.AMIFamily = some d.AMIFamilyWindows2022)) →
      (s.validateUserData d).length = 1 ∧ (s.validateUserData d).countP Leaf.isGeneric = 1) ∧
    (¬ (s.UserData ≠ none ∧
        (s.AMIFamily = some d.AMIFamilyWindows2019 ∨ s.AMIFamily = some d.AMIFamilyWindows2022)) →
      s.validateUserData d = []) := by
  cases hu : s.UserData with
  | none => simp [NodeClassSpec.validateUserData, hu]
  | some u =>
    cases hf : s.AMIFamily with
    | none =>
      simp [NodeClassSpec.validateUserData, hu, hf, Ne.symm h19, Ne.symm h22]
    | some f =>
      by_cases h1 : f = d.AMIFamilyWindows2019 <;> by_cases h2 : f = d.AMIFamilyWindows2022 <;>
        simp [NodeClassSpec.validateUserData, hu, hf, h1, h2, Also_eq_append, ErrGeneric,
          Leaf.isGeneric]

/-- Witness of C8: user data with the Windows2022 family, and user data without
a family. -/
theorem validateUserData_cases_witness :
    ((NodeClassSpec.validateUserData sampleData
        { emptySpec with UserData := some "echo", AMIFamily := some "Windows2022" }).length = 1 ∧
      (NodeClassSpec.validateUserData sampleData
        { emptySpec with UserData := some "echo", AMIFamily := some "Windows2022" }).countP
          Leaf.isGeneric = 1) ∧
    NodeClassSpec.validateUserData sampleData { emptySpec with UserData := some "echo" } = [] :=
  ⟨(validateUserData_cases sampleData
      { emptySpec with UserData := some "echo", AMIFamily := some "Windows2022" }
      (by decide) (by decide)).1 (by decide),
   (validateUserData_cases sampleData { emptySpec with UserData := some "echo" }
      (by decide) (by decide)).2 (by decide)⟩

/-! ## Tags -/

/-- C9: for a selector-term tag map, `validateTags` yields one `InvalidKeyName`
per entry with an empty key, one `InvalidValue` per entry with an empty value
and nothing else: the number of leaves is the sum of the two counts, and the
result is empty exactly when every key and every value is non-empty. -/
theorem validateTags_one_error_per_empty_key_or_value (m : TagMap) :
    (validateTags m).countP Leaf.isInvalidKeyName = m.countP (fun e => decide (e.1 = "")) ∧
    (validateTags m).countP Leaf.isInvalidValue = m.countP (fun e => decide (e.2 = "")) ∧
    (validateTags m).length =
      m.countP (fun e => decide (e.1 = "")) + m.countP (fun e => decide (e.2 = "")) ∧
    (validateTags m = [] ↔ ∀ e ∈ m, e.1 ≠ "" ∧ e.2 ≠ "") := by
  induction m with
  | nil => simp [validateTags]
  | cons e rest ih =>
    obtain ⟨k, v⟩ := e
    obtain ⟨ih1, ih2, ih3, ih4⟩ := ih
    by_cases hk : k = "" <;> by_cases hv : v = "" <;>
      simp [validateTags, List.countP_cons, ih1, ih2, ih3, ih4, hk, hv, ErrInvalidKeyName,
        ErrInvalidValue, Leaf.isInvalidKeyName, Leaf.isInvalidValue] <;>
      omega

/-- Leaves of the pattern loop for one key: one `InvalidKeyName` per matching
pattern, nothing else. -/
theorem validateRestrictedTag_counts (quote : String → String) (k : String)
    (patterns : List Pattern) :
    (validateRestrictedTag quote k patterns).countP Leaf.isInvalidKeyName =
        patterns.countP (fun p => p.MatchString k) ∧
    (validateRestrictedTag quote k patterns).countP Leaf.isInvalidValue = 0 ∧
    (validateRestrictedTag quote k patterns).length =
        patterns.countP (fun p => p.MatchString k) ∧
    (validateRestrictedTag quote k patterns = [] ↔
        ∀ p ∈ patterns, p.MatchString k = false) := by
  induction patterns with
  | nil => simp [validateRestrictedTag]
  | cons p rest ih =>
    obtain ⟨ih1, ih2, ih3, ih4⟩ := ih
    by_cases hp : p.MatchString k = true <;>
      simp [validateRestrictedTag, List.countP_cons, ih1, ih2, ih3, ih4, hp, ErrInvalidKeyName,
        Leaf.isInvalidKeyName, Leaf.isInvalidValue]

/-- Leaves of `NodeClassSpec.validateTags` by kind. -/
theorem validateSpecTags_counts (quote : String → String) (patterns : List Pattern)
    (m : TagMap) :
    (validateSpecTags quote patterns m).countP Leaf.isInvalidValue =
        m.countP (fun e => decide (e.1 = "")) ∧
    (validateSpecTags quote patterns m).countP Leaf.isInvalidKeyName =
        (m.map fun e => patterns.countP (fun p => p.MatchString e.1)).sum ∧
    (validateSpecTags quote patterns m).length =
        m.countP (fun e => decide (e.1 = "")) +
        (m.map fun e => patterns.countP (fun p => p.MatchString e.1)).sum ∧
    (validateSpecTags quote patterns m = [] ↔
        ∀ e ∈ m, e.1 ≠ "" ∧ ∀ p ∈ patterns, p.MatchString e.1 = false) := by
  induction m with
  | nil => simp [validateSpecTags]
  | cons e rest ih =>
    obtain ⟨k, v⟩ := e
    obtain ⟨ih1, ih2, ih3, ih4⟩ := ih
    by_cases hk : k = ""
    · subst hk
      obtain ⟨r1, r2, r3, r4⟩ := validateRestrictedTag_counts quote "" patterns
      refine ⟨?_, ?_, ?_, ?_⟩
      · simp [validateSpecTags, List.countP_cons, ih1, r2, ErrInvalidValue, Leaf.isInvalidValue]
      · simp [validateSpecTags, List.countP_cons, ih2, r1, ErrInvalidValue,
          Leaf.isInvalidKeyName]
      · simp [validateSpecTags, ih3, r3, ErrInvalidValue]
        omega
      · simp [validateSpecTags, ErrInvalidValue]
    · obtain ⟨r1, r2, r3, r4⟩ := validateRestrictedTag_counts quote k patterns
      refine ⟨?_, ?_, ?_, ?_⟩
      · simp [validateSpecTags, List.countP_cons, ih1, r2, hk]
      · simp [validateSpecTags, List.countP_cons, ih2, r1, hk]
      · simp [validateSpecTags, ih3, r3, hk]
        omega
      · simp [validateSpecTags, ih4, r4, hk]

/-- Leaves of the pattern loop for one key: for each restricted pattern that
matches, in order, the `InvalidKeyName` leaf at `tags` that names the key and
quotes the pattern. -/
theorem validateRestrictedTag_eq_map (quote : String → String) (k : String)
    (patterns : List Pattern) :
    validateRestrictedTag quote k patterns =
      (patterns.filter fun p => p.MatchString k).map fun p =>
        ⟨.invalidKeyName k ["tag contains in restricted tag matching " ++ quote p.source],
          [[Seg.field "tags"]]⟩ := by
  induction patterns with
  | nil => rfl
  | cons p rest ih =>
    by_cases hp : p.MatchString k = true <;>
      simp [validateRestrictedTag, ih, hp, ErrInvalidKeyName, pathOf]

/-- Leaves of `NodeClassSpec.validateTags`, entry by entry: the empty-key
`InvalidValue` leaf at `tags` with its message, then the `InvalidKeyName` leaves
of the matching patterns. -/
theorem validateSpecTags_eq_leaves (quote : String → String) (patterns : List Pattern)
    (m : TagMap) :
    validateSpecTags quote patterns m = m.flatMap fun e =>
      (if e.1 = "" then
          [(⟨.invalidValue ("the tag with key : \x27\x27 and value : \x27" ++ e.2 ++
              "\x27 is invalid because empty tag keys aren\x27t supported"),
            [[Seg.field "tags"]]⟩ : Leaf)]
        else []) ++
      (patterns.filter fun p => p.MatchString e.1).map fun p =>
        ⟨.invalidKeyName e.1 ["tag contains in restricted tag matching " ++ quote p.source],
          [[Seg.field "tags"]]⟩ := by
  induction m with
  | nil => rfl
  | cons e rest ih =>
    obtain ⟨k, v⟩ := e
    rw [validateSpecTags, ih, List.flatMap_cons, validateRestrictedTag_eq_map]
    by_cases hk : k = "" <;> simp [hk, ErrInvalidValue, pathOf]

/-- Counterexample to C10: with two restricted patterns that both match the key
`karpenter.sh/managed-by`, a map with this single key (one key matching a
restricted pattern) gets two `InvalidKeyName` errors, one per pattern. -/
theorem spec_tags_two_errors_for_one_restricted_key :
    [("karpenter.sh/managed-by", "cluster")].countP
        (fun e => sampleData.RestrictedTagPatterns.any fun p => p.MatchString e.1) = 1 ∧
    (NodeClassSpec.validateTags sampleData
        { emptySpec with Tags := [("karpenter.sh/managed-by", "cluster")] }).countP
      Leaf.isInvalidKeyName = 2 := by
  decide

/-- C10 as amended: `NodeClassSpec.validateTags` yields one `InvalidValue` (the
empty-key message) per entry with an empty key, which for the distinct keys of a
map is one if the map has an empty key and none otherwise, plus one
`InvalidKeyName` for each pair of a key and a restricted pattern the key matches,
whatever the value, and nothing else; the result is empty exactly when no key is
empty and no key matches any restricted pattern. The last part gives the leaves
themselves: per entry, the `InvalidValue` at `tags` with the message "the tag
with key : '' and value : 'v' is invalid because empty tag keys aren't
supported" when the key is empty, then, for each matching pattern, the
`InvalidKeyName` at `tags` naming the key, with the detail "tag contains in
restricted tag matching" followed by the quoted pattern. -/
theorem spec_validateTags_one_error_per_key_and_pattern (d : StaticData) (s : NodeClassSpec) :
    (s.validateTags d).countP Leaf.isInvalidValue = s.Tags.countP (fun e => decide (e.1 = "")) ∧
    ((s.Tags.map Prod.fst).Nodup →
      (s.validateTags d).countP Leaf.isInvalidValue =
        if "" ∈ s.Tags.map Prod.fst then 1 else 0) ∧
    (s.validateTags d).countP Leaf.isInvalidKeyName =
      (s.Tags.map fun e => d.RestrictedTagPatterns.countP (fun p => p.MatchString e.1)).sum ∧
    (s.validateTags d).length =
      s.Tags.countP (fun e => decide (e.1 = "")) +
      (s.Tags.map fun e => d.RestrictedTagPatterns.countP (fun p => p.MatchString e.1)).sum ∧
    (s.validateTags d = [] ↔
      ∀ e ∈ s.Tags, e.1 ≠ "" ∧ ∀ p ∈ d.RestrictedTagPatterns, p.MatchString e.1 = false) ∧
    s.validateTags d = s.Tags.flatMap fun e =>
      (if e.1 = "" then
          [(⟨.invalidValue ("the tag with key : \x27\x27 and value : \x27" ++ e.2 ++
              "\x27 is invalid because empty tag keys aren\x27t supported"),
            [[Seg.field "tags"]]⟩ : Leaf)]
        else []) ++
      (d.RestrictedTagPatterns.filter fun p => p.MatchString e.1).map fun p =>
        ⟨.invalidKeyName e.1
            ["tag contains in restricted tag matching " ++ d.Quote p.source],
          [[Seg.field "tags"]]⟩ := by
  obtain ⟨h1, h2, h3, h4⟩ := validateSpecTags_counts d.Quote d.RestrictedTagPatterns s.Tags
  refine ⟨h1, ?_, h2, h3, h4,
    validateSpecTags_eq_leaves d.Quote d.RestrictedTagPatterns s.Tags⟩
  intro hn
  rw [NodeClassSpec.validateTags, h1, ← List.count_eq_of_nodup hn, List.count, List.countP_map]
  congr 1

/-- Witness of C10: a map with the empty key and one other key, and the leaves
of a map with the empty key and a restricted key. -/
theorem spec_validateTags_one_error_per_key_and_pattern_witness :
    (NodeClassSpec.validateTags sampleData
        { emptySpec with Tags := [("", "v"), ("team", "infra")] }).countP Leaf.isInvalidValue =
      (if "" ∈ [("", "v"), ("team", "infra")].map Prod.fst then 1 else 0) ∧
    NodeClassSpec.validateTags sampleData taggedSpec =
      [⟨.invalidValue ("the tag with key : \x27\x27 and value : \x27v\x27 is invalid " ++
            "because empty tag keys aren\x27t supported"),
          [[Seg.field "tags"]]⟩,
       ⟨.invalidKeyName "karpenter.sh/nodepool"
          ["tag contains in restricted tag matching " ++
            "\"^karpenter\\\\.sh/(managed-by|nodepool)$\""],
          [[Seg.field "tags"]]⟩] :=
  ⟨(spec_validateTags_one_error_per_key_and_pattern sampleData
      { emptySpec with Tags := [("", "v"), ("team", "infra")] }).2.1 (by decide),
   (spec_validateTags_one_error_per_key_and_pattern sampleData taggedSpec).2.2.2.2.2.trans
     (by decide)⟩

/-! ## Metadata options -/

/-- Result of an enum check on an optional field: one leaf exactly when the
field is invalid. -/
theorem enumField_length (o : Option String) (field : String) (table : List String) :
    (match o with
      | none => ([] : FieldError)
      | some v => validateStringEnum v field table).length =
      if enumFieldInvalid o table = true then 1 else 0 := by
  cases o with
  | none => rfl
  | some v =>
    by_cases h : v ∈ table <;> simp [validateStringEnum_eq, enumFieldInvalid, h]

/-- C11: `validateMetadataOptions` returns empty when MetadataOptions is absent.
When it is present the result is the four sub-checks merged in order, each
contributing exactly one leaf when its field is invalid (present and not in its
table; hop limit present and outside 1..64, an `OutOfBounds` leaf) and none
otherwise, independently of the other three; so the result is empty exactly when
each field is absent or valid. -/
theorem validateMetadataOptions_cases (d : StaticData) (s : NodeClassSpec) :
    (s.MetadataOptions = none → s.validateMetadataOptions d = []) ∧
    (∀ m, s.MetadataOptions = some m →
      s.validateMetadataOptions d =
        validateHTTPEndpoint d m ++ (validateHTTPProtocolIpv6 d m ++
          (validateHTTPPutResponseHopLimit m ++ validateHTTPTokens d m)) ∧
      (validateHTTPEndpoint d m).length =
        (if enumFieldInvalid m.HTTPEndpoint d.EndpointStateValues = true then 1 else 0) ∧
      (validateHTTPProtocolIpv6 d m).length =
        (if enumFieldInvalid m.HTTPProtocolIPv6 d.ProtocolIpv6Values = true then 1 else 0) ∧
      (validateHTTPPutResponseHopLimit m).length =
        (if hopLimitInvalid m.HTTPPutResponseHopLimit = true then 1 else 0) ∧
      (validateHTTPPutResponseHopLimit m).countP Leaf.isOutOfBounds =
        (if hopLimitInvalid m.HTTPPutResponseHopLimit = true then 1 else 0) ∧
      (validateHTTPTokens d m).length =
        (if enumFieldInvalid m.HTTPTokens d.HttpTokensStateValues = true then 1 else 0) ∧
      (s.validateMetadataOptions d = [] ↔
        enumFieldInvalid m.HTTPEndpoint d.EndpointStateValues = false ∧
        enumFieldInvalid m.HTTPProtocolIPv6 d.ProtocolIpv6Values = false ∧
        hopLimitInvalid m.HTTPPutResponseHopLimit = false ∧
        enumFieldInvalid m.HTTPTokens d.HttpTokensStateValues = false)) := by
  refine ⟨fun h => by simp [NodeClassSpec.validateMetadataOptions, h], ?_⟩
  intro m hm
  have hres : s.validateMetadataOptions d =
      validateHTTPEndpoint d m ++ (validateHTTPProtocolIpv6 d m ++
        (validateHTTPPutResponseHopLimit m ++ validateHTTPTokens d m)) := by
    simp [NodeClassSpec.validateMetadataOptions, hm, Also_eq_append]
  have h1 : (validateHTTPEndpoint d m).length =
      (if enumFieldInvalid m.HTTPEndpoint d.EndpointStateValues = true then 1 else 0) :=
    enumField_length m.HTTPEndpoint "httpEndpoint" d.EndpointStateValues
  have h2 : (validateHTTPProtocolIpv6 d m).length =
      (if enumFieldInvalid m.HTTPProtocolIPv6 d.ProtocolIpv6Values = true then 1 else 0) :=
    enumField_length m.HTTPProtocolIPv6 "httpProtocolIPv6" d.ProtocolIpv6Values
  have h4 : (validateHTTPTokens d m).length =
      (if enumFieldInvalid m.HTTPTokens d.HttpTokensStateValues = true then 1 else 0) :=
    enumField_length m.HTTPTokens "httpTokens" d.HttpTokensStateValues
  have h3 : (validateHTTPPutResponseHopLimit m).length =
        (if hopLimitInvalid m.HTTPPutResponseHopLimit = true then 1 else 0) ∧
      (validateHTTPPutResponseHopLimit m).countP Leaf.isOutOfBounds =
        (if hopLimitInvalid m.HTTPPutResponseHopLimit = true then 1 else 0) := by
    unfold validateHTTPPutResponseHopLimit hopLimitInvalid
    cases m.HTTPPutResponseHopLimit with
    | none => simp
    | some limit =>
      by_cases hl : limit < 1 ∨ limit > 64
      · have hl2 : limit < 1 ∨ 64 < limit := hl
        simp [hl, hl2, ErrOutOfBoundsValue, Leaf.isOutOfBounds]
      · have hl2 : ¬ (limit < 1 ∨ 64 < limit) := hl
        simp [hl, hl2]
  refine ⟨hres, h1, h2, h3.1, h3.2, h4, ?_⟩
  rw [hres, ← List.length_eq_zero]
  simp only [List.length_append, h1, h2, h3.1, h4]
  cases enumFieldInvalid m.HTTPEndpoint d.EndpointStateValues <;>
    cases enumFieldInvalid m.HTTPProtocolIPv6 d.ProtocolIpv6Values <;>
    cases hopLimitInvalid m.HTTPPutResponseHopLimit <;>
    cases enumFieldInvalid m.HTTPTokens d.HttpTokensStateValues <;> simp

/-- Witness of C11: no metadata options; hop limits 0 and 65 are rejected with
one `OutOfBounds` leaf, 1 and 64 are accepted. -/
theorem validateMetadataOptions_cases_witness :
    emptySpec.validateMetadataOptions sampleData = [] ∧
    ((hopLimitSpec 0).validateMetadataOptions sampleData).countP Leaf.isOutOfBounds = 1 ∧
    ((hopLimitSpec 65).validateMetadataOptions sampleData).countP Leaf.isOutOfBounds = 1 ∧
    (hopLimitSpec 1).validateMetadataOptions sampleData = [] ∧
    (hopLimitSpec 64).validateMetadataOptions sampleData = [] :=
  ⟨(validateMetadataOptions_cases sampleData emptySpec).1 rfl,
   by
    have h := (validateMetadataOptions_cases sampleData (hopLimitSpec 0)).2 _ rfl
    rw [h.1]
    decide,
   by
    have h := (validateMetadataOptions_cases sampleData (hopLimitSpec 65)).2 _ rfl
    rw [h.1]
    decide,
   ((validateMetadataOptions_cases sampleData (hopLimitSpec 1)).2 _ rfl).2.2.2.2.2.2.2
     (by decide),
   ((validateMetadataOptions_cases sampleData (hopLimitSpec 64)).2 _ rfl).2.2.2.2.2.2.2
     (by decide)⟩

/-! ## Accepted configurations and identity laws -/

/-- The package-level `validateTags` finds nothing exactly when every key and
every value is non-empty. -/
theorem validateTags_eq_nil (m : TagMap) :
    validateTags m = [] ↔ ∀ e ∈ m, e.1 ≠ "" ∧ e.2 ≠ "" := by
  induction m with
  | nil => simp [validateTags]
  | cons e rest ih =>
    obtain ⟨k, v⟩ := e
    by_cases hk : k = "" <;> by_cases hv : v = "" <;>
      simp [validateTags, ih, hk, hv, ErrInvalidKeyName, ErrInvalidValue]

/-- The subnet loop started without errors finds nothing when every term
validates to empty. -/
theorem validateSubnetSelectorTermsLoop_nil (terms : List SubnetSelectorTerm) :
    ∀ i, (∀ t ∈ terms, t.validate = []) → validateSubnetSelectorTermsLoop i terms [] = [] := by
  induction terms with
  | nil => intro i _; rfl
  | cons t rest ih =>
    intro i h
    have ht : t.validate = [] := h t (List.mem_cons_self _ _)
    simp only [validateSubnetSelectorTermsLoop, Also_eq_append, ht, List.append_nil, ViaIndex_nil]
    exact ih (i + 1) fun u hu => h u (List.mem_cons_of_mem _ hu)

/-- C12: a spec with exactly one subnet term that has a non-empty ID and no
tags, exactly one security-group term that has a non-empty tag map with
non-empty keys and values and empty ID and Name, no AMI terms, no AMI family, no
block device mappings, no tags, no metadata options and no user data validates
to the empty value, and `Validate` is empty whenever the metadata check is. -/
theorem validate_accepts_minimal_spec {Meta : Type} (d : StaticData) (s : NodeClassSpec)
    (t : SubnetSelectorTerm) (g : SecurityGroupSelectorTerm)
    (hs : s.SubnetSelectorTerms = [t]) (htid : t.ID ≠ "") (htt : t.Tags = [])
    (hg : s.SecurityGroupSelectorTerms = [g]) (hgt : g.Tags ≠ [])
    (hgv : ∀ e ∈ g.Tags, e.1 ≠ "" ∧ e.2 ≠ "") (hgid : g.ID = "") (hgn : g.Name = "")
    (hami : s.AMISelectorTerms = []) (hfam : s.AMIFamily = none)
    (hbdm : s.BlockDeviceMappings = []) (htags : s.Tags = [])
    (hmd : s.MetadataOptions = none) (hud : s.UserData = none) :
    s.validate d = [] ∧
    ∀ (validateObjectMetadata : NodeClass Meta → FieldError) (a : NodeClass Meta),
      a.Spec = s → validateObjectMetadata a = [] → a.Validate d validateObjectMetadata = [] := by
  have h1 : t.validate = [] := by
    obtain ⟨tags, id⟩ := t
    simp only at htid htt
    subst htt
    simp [SubnetSelectorTerm.validate, Also_eq_append, validateTags, ViaField_nil, htid]
  have h2 : g.validate = [] := by
    obtain ⟨tags, id, name⟩ := g
    simp only at hgt hgv hgid hgn
    subst hgid hgn
    have hv : validateTags tags = [] := (validateTags_eq_nil tags).2 hgv
    simp [SecurityGroupSelectorTerm.validate, Also_eq_append, hv, ViaField_nil, hgt]
  have hv : s.validate d = [] := by
    simp [NodeClassSpec.validate, NodeClassSpec.validateSubnetSelectorTerms,
      NodeClassSpec.validateSecurityGroupSelectorTerms, NodeClassSpec.validateAMISelectorTerms,
      NodeClassSpec.validateMetadataOptions, NodeClassSpec.validateAMIFamily,
      NodeClassSpec.validateBlockDeviceMappings, NodeClassSpec.validateUserData,
      NodeClassSpec.validateTags, validateSubnetSelectorTermsLoop,
      validateSecurityGroupSelectorTermsLoop, validateAMISelectorTermsLoop,
      validateBlockDeviceMappingsLoop, validateSpecTags, hs, hg, hami, hfam, hbdm, htags, hmd,
      hud, h1, h2, Also_eq_append, ViaField_nil, ViaIndex_nil]
  refine ⟨hv, ?_⟩
  intro vom a ha hm
  simp [NodeClass.Validate, ha, hv, hm, Also_eq_append, ViaField_nil]

/-- Witness of C12: the accepted configuration, with a metadata check that
finds nothing. -/
theorem validate_accepts_minimal_spec_witness :
    acceptedSpec.validate sampleData = [] ∧
    NodeClass.Validate sampleData (fun _ => []) (⟨(), acceptedSpec⟩ : NodeClass Unit) = [] :=
  have h := @validate_accepts_minimal_spec Unit sampleData acceptedSpec
    ⟨[], "subnet-0123"⟩ ⟨[("karpenter.sh/discovery", "cluster")], "", ""⟩
    rfl (by decide) rfl rfl (by decide) (by decide) rfl rfl rfl rfl rfl rfl rfl rfl
  ⟨h.1, h.2 (fun _ => []) ⟨(), acceptedSpec⟩ rfl rfl⟩

/-- C16: identity laws of the error value. Merging two empty values is empty,
the empty value is a left and right identity of merge, and qualifying the empty
value under any field, index or field-and-index is empty; hence
`validateSubnetSelectorTerms` is empty for every non-empty sequence of terms
each of which validates to empty. -/
theorem error_value_identity_laws :
    FieldError.Also [] [] = [] ∧
    (∀ e : FieldError, FieldError.Also [] e = e) ∧
    (∀ e : FieldError, FieldError.Also e [] = e) ∧
    (∀ name : String, FieldError.ViaField [] name = []) ∧
    (∀ i : Nat, FieldError.ViaIndex [] i = []) ∧
    (∀ (name : String) (i : Nat), FieldError.ViaFieldIndex [] name i = []) ∧
    (∀ s : NodeClassSpec, s.SubnetSelectorTerms ≠ [] →
      (∀ t ∈ s.SubnetSelectorTerms, t.validate = []) → s.validateSubnetSelectorTerms = []) := by
  refine ⟨rfl, fun e => List.nil_append e, fun e => List.append_nil e, fun _ => rfl,
    fun _ => rfl, fun _ _ => rfl, ?_⟩
  intro s hne hall
  have hlen : ¬ s.SubnetSelectorTerms.length = 0 := by
    simpa [List.length_eq_zero] using hne
  simp only [NodeClassSpec.validateSubnetSelectorTerms, hlen, if_false]
  exact validateSubnetSelectorTermsLoop_nil s.SubnetSelectorTerms 0 hall

/-- Witness of C16: the accepted configuration has one valid subnet term. -/
theorem error_value_identity_laws_witness :
    acceptedSpec.validateSubnetSelectorTerms = [] :=
  error_value_identity_laws.2.2.2.2.2.2 acceptedSpec (by decide) (by decide)

/-! ## Enumerations -/

/-- C17: `validateStringEnum` returns the empty value exactly when `value` is an
element of the allowed list (empty lists and duplicates included); otherwise it
returns exactly one leaf, an `InvalidValue` located at the given field. -/
theorem validateStringEnum_iff_member (value field : String) (validValues : List String) :
    (validateStringEnum value field validValues = [] ↔ value ∈ validValues) ∧
    (value ∉ validValues →
      validateStringEnum value field validValues =
          [⟨.invalidValue (value ++ " not in " ++ ", ".intercalate validValues),
            [pathOf field]⟩] ∧
      (validateStringEnum value field validValues).length = 1 ∧
      (validateStringEnum value field validValues).countP Leaf.isInvalidValue = 1) := by
  rw [validateStringEnum_eq]
  by_cases h : value ∈ validValues <;> simp [h, Leaf.isInvalidValue]

/-- Witness of C17: a value checked against the empty list and a value missing
from a list with duplicates. -/
theorem validateStringEnum_iff_member_witness :
    validateStringEnum "gp3" "volumeType" [] =
        [⟨.invalidValue "gp3 not in ", [[Seg.field "volumeType"]]⟩] ∧
    (validateStringEnum "gp9" "volumeType" ["gp2", "gp2", "gp3"]).length = 1 :=
  ⟨((validateStringEnum_iff_member "gp3" "volumeType" []).2 (by decide)).1,
   ((validateStringEnum_iff_member "gp9" "volumeType" ["gp2", "gp2", "gp3"]).2
      (by decide)).2.1⟩

/-! ## Owner of an AMI term -/

/-- C18: Owner counts against ID but is no selection mode of an AMI term. A term
with only ID and Owner yields the mutual-exclusivity error; a term with tags,
ID, Name and SSM all empty (Owner set or not) yields the "at least one, got
none" error, whose field list is tags, id, name, ssm, without owner; and a term
with Owner, ID empty, and exactly one of Name, SSM or a non-empty tag map with
non-empty keys and values yields no error. -/
theorem ami_owner_is_no_selection_mode (t : AMISelectorTerm) :
    (t.Tags = [] → t.Name = "" → t.SSM = "" → t.ID ≠ "" → t.Owner ≠ "" →
      t.validate = [⟨.generic idExclusiveMsg, []⟩]) ∧
    (t.Tags = [] → t.ID = "" → t.Name = "" → t.SSM = "" →
      t.validate =
        [⟨.generic "expect at least one, got none",
          [[Seg.field "tags"], [Seg.field "id"], [Seg.field "name"], [Seg.field "ssm"]]⟩]) ∧
    (t.ID = "" → t.Owner ≠ "" →
      ((t.Name ≠ "" ∧ t.SSM = "" ∧ t.Tags = []) ∨
       (t.Name = "" ∧ t.SSM ≠ "" ∧ t.Tags = []) ∨
       (t.Name = "" ∧ t.SSM = "" ∧ t.Tags ≠ [] ∧ ∀ e ∈ t.Tags, e.1 ≠ "" ∧ e.2 ≠ "")) →
      t.validate = []) := by
  obtain ⟨tags, id, name, ssm, owner⟩ := t
  refine ⟨?_, ?_, ?_⟩
  · intro ht hn hs hi ho
    simp only at ht hn hs hi ho
    subst ht hn hs
    simp [AMISelectorTerm.validate, Also_eq_append, validateTags, ViaField_nil, hi, ho,
      ErrGeneric]
  · intro ht hi hn hs
    simp only at ht hi hn hs
    subst ht hi hn hs
    simp [AMISelectorTerm.validate, Also_eq_append, validateTags, ViaField_nil, ErrGeneric,
      pathOf]
  · intro hi ho h
    simp only at hi ho h
    subst hi
    rcases h with ⟨hn, hs, ht⟩ | ⟨hn, hs, ht⟩ | ⟨hn, hs, ht, hv⟩
    · subst hs ht
      simp [AMISelectorTerm.validate, Also_eq_append, validateTags, ViaField_nil, hn]
    · subst hn ht
      simp [AMISelectorTerm.validate, Also_eq_append, validateTags, ViaField_nil, hs]
    · subst hn hs
      simp [AMISelectorTerm.validate, Also_eq_append, (validateTags_eq_nil tags).2 hv,
        ViaField_nil, ht]

/-- Witness of C18: ID with Owner; Owner alone; Owner with Name. -/
theorem ami_owner_is_no_selection_mode_witness :
    amiIDAndOwner.validate = [⟨.generic idExclusiveMsg, []⟩] ∧
    amiOwnerOnly.validate =
      [⟨.generic "expect at least one, got none",
        [[Seg.field "tags"], [Seg.field "id"], [Seg.field "name"], [Seg.field "ssm"]]⟩] ∧
    AMISelectorTerm.validate ⟨[], "", "my-ami", "", "self"⟩ = [] :=
  ⟨(ami_owner_is_no_selection_mode amiIDAndOwner).1 rfl rfl rfl (by decide) (by decide),
   (ami_owner_is_no_selection_mode amiOwnerOnly).2.1 rfl rfl rfl rfl,
   (ami_owner_is_no_selection_mode ⟨[], "", "my-ami", "", "self"⟩).2.2 rfl (by decide)
     (Or.inl ⟨by decide, rfl, rfl⟩)⟩

/-! ## Paths of the reported errors -/

/-- C13: with two subnet terms of which the first has a tag `env` with an empty
value, term 0 alone reports the error at `tags.env`, and
`validateSubnetSelectorTerms` reports it at `[1][0].tags.env`: the loop
qualifies the accumulated errors, so the error of term 0 is qualified by index
0 and then again by index 1. -/
theorem subnet_term_error_qualified_by_later_index :
    SubnetSelectorTerm.validate ⟨[("env", "")], ""⟩ =
        [⟨.invalidValue "\"\"", [[Seg.field "tags", Seg.field "env"]]⟩] ∧
    twoSubnetTermsSpec.validateSubnetSelectorTerms =
        [⟨.invalidValue "\"\"",
          [[Seg.index 1, Seg.index 0, Seg.field "tags", Seg.field "env"]]⟩] ∧
    (twoSubnetTermsSpec.validate sampleData).map Leaf.paths =
        [[[Seg.field "subnetSelectorTerms", Seg.index 1, Seg.index 0, Seg.field "tags",
            Seg.field "env"]]] := by
  decide

/-- C14: with two security-group terms (and two AMI terms) that each have a tag
`env` with an empty value, the validators report the same leaf at `tags.env`
once per term: no path holds an index, and the errors of the two terms cannot
be told apart. -/
theorem security_group_and_ami_term_errors_carry_no_index :
    twoTermsSameErrorSpec.validateSecurityGroupSelectorTerms =
        [⟨.invalidValue "\"\"", [[Seg.field "tags", Seg.field "env"]]⟩,
         ⟨.invalidValue "\"\"", [[Seg.field "tags", Seg.field "env"]]⟩] ∧
    twoTermsSameErrorSpec.validateAMISelectorTerms =
        [⟨.invalidValue "\"\"", [[Seg.field "tags", Seg.field "env"]]⟩,
         ⟨.invalidValue "\"\"", [[Seg.field "tags", Seg.field "env"]]⟩] ∧
    (twoTermsSameErrorSpec.validate sampleData).map Leaf.paths =
        [[[Seg.field "securityGroupSelectorTerms", Seg.field "tags", Seg.field "env"]],
         [[Seg.field "securityGroupSelectorTerms", Seg.field "tags", Seg.field "env"]],
         [[Seg.field "amiSelectorTerms", Seg.field "tags", Seg.field "env"]],
         [[Seg.field "amiSelectorTerms", Seg.field "tags", Seg.field "env"]]] := by
  decide

/-- C15: the errors of block device mapping `i` are reported by spec validation
under `blockDeviceMappings.blockDeviceMappings[i]`: the loop qualifies them
with the field name and the index, and `validate` puts the field name in front
once more. -/
theorem block_device_mapping_paths_name_field_twice :
    (blockDeviceSpec.validate sampleData).map Leaf.paths =
      [[[Seg.field "blockDeviceMappings", Seg.field "blockDeviceMappings", Seg.index 0,
          Seg.field "deviceName"]],
       [[Seg.field "blockDeviceMappings", Seg.field "blockDeviceMappings", Seg.index 0,
          Seg.field "ebs", Seg.field "volumeType"]],
       [[Seg.field "blockDeviceMappings", Seg.field "blockDeviceMappings", Seg.index 0,
          Seg.field "ebs", Seg.field "volumeSize"]],
       [[Seg.field "blockDeviceMappings", Seg.field "blockDeviceMappings", Seg.index 1,
          Seg.field "ebs"]]] := by
  decide

/-- C19: the user-data error is reported at `userData.userData`, the AMI family
enum error at `amiFamily.amiFamily` and the spec-level tag errors at
`tags.tags`: each validator names its field in the leaf and `validate`
qualifies the leaf under the same field again. -/
theorem scalar_field_paths_name_field_twice :
    (windowsUserDataSpec.validate sampleData).map Leaf.paths =
      [[[Seg.field "userData", Seg.field "userData"]],
       [[Seg.field "tags", Seg.field "tags"]]] ∧
    (unknownFamilySpec.validate sampleData).map Leaf.paths =
      [[[Seg.field "amiFamily", Seg.field "amiFamily"]],
       [[Seg.field "tags", Seg.field "tags"]]] := by
  decide

/-! ## Independence of the map iteration order -/

theorem ViaField_perm {a b : FieldError} (h : a.Perm b) (name : String) :
    (a.ViaField name).Perm (b.ViaField name) :=
  List.Perm.map _ h

theorem ViaIndex_perm {a b : FieldError} (h : a.Perm b) (i : Nat) :
    (a.ViaIndex i).Perm (b.ViaIndex i) :=
  List.Perm.map _ h

/-- The package-level `validateTags` visits the entries one by one. -/
theorem validateTags_eq_flatMap (m : TagMap) :
    validateTags m = m.flatMap fun e =>
      (if e.1 = "" then ErrInvalidKeyName "\"\"" "" [] else []) ++
        (if e.2 = "" then ErrInvalidValue "\"\"" e.1 else []) := by
  induction m with
  | nil => rfl
  | cons e rest ih =>
    obtain ⟨k, v⟩ := e
    rw [validateTags, ih, List.flatMap_cons]

/-- The loop of `NodeClassSpec.validateTags` visits the entries one by one. -/
theorem validateSpecTags_eq_flatMap (quote : String → String) (patterns : List Pattern)
    (m : TagMap) :
    validateSpecTags quote patterns m = m.flatMap fun e =>
      (if e.1 = "" then
          ErrInvalidValue ("the tag with key : \x27\x27 and value : \x27" ++ e.2 ++
            "\x27 is invalid because empty tag keys aren\x27t supported") "tags"
        else []) ++ validateRestrictedTag quote e.1 patterns := by
  induction m with
  | nil => rfl
  | cons e rest ih =>
    obtain ⟨k, v⟩ := e
    rw [validateSpecTags, ih, List.flatMap_cons]

theorem validateTags_perm {m m' : TagMap} (h : m.Perm m') :
    (validateTags m).Perm (validateTags m') := by
  rw [validateTags_eq_flatMap, validateTags_eq_flatMap]
  exact List.Perm.flatMap_right _ h

theorem validateSpecTags_perm (quote : String → String) (patterns : List Pattern)
    {m m' : TagMap} (h : m.Perm m') :
    (validateSpecTags quote patterns m).Perm (validateSpecTags quote patterns m') := by
  rw [validateSpecTags_eq_flatMap, validateSpecTags_eq_flatMap]
  exact List.Perm.flatMap_right _ h

theorem subnetTerm_validate_perm {t t' : SubnetSelectorTerm}
    (h : t.Tags.Perm t'.Tags ∧ t.ID = t'.ID) : t.validate.Perm t'.validate := by
  obtain ⟨tags, id⟩ := t
  obtain ⟨tags', id'⟩ := t'
  obtain ⟨hp, hi⟩ := h
  simp only at hp hi
  subst hi
  have he := ViaField_perm (validateTags_perm hp) "tags"
  simp only [SubnetSelectorTerm.validate, Also_eq_append, List.nil_append, hp.length_eq]
  split_ifs <;> first | exact he | exact he.append (List.Perm.refl _)

theorem securityGroupTerm_validate_perm {t t' : SecurityGroupSelectorTerm}
    (h : t.Tags.Perm t'.Tags ∧ t.ID = t'.ID ∧ t.Name = t'.Name) :
    t.validate.Perm t'.validate := by
  obtain ⟨tags, id, name⟩ := t
  obtain ⟨tags', id', name'⟩ := t'
  obtain ⟨hp, hi, hn⟩ := h
  simp only at hp hi hn
  subst hi hn
  have he := ViaField_perm (validateTags_perm hp) "tags"
  simp only [SecurityGroupSelectorTerm.validate, Also_eq_append, List.nil_append, hp.length_eq]
  split_ifs <;> first | exact he | exact he.append (List.Perm.refl _)

theorem amiTerm_validate_perm {t t' : AMISelectorTerm}
    (h : t.Tags.Perm t'.Tags ∧ t.ID = t'.ID ∧ t.Name = t'.Name ∧ t.SSM = t'.SSM ∧
      t.Owner = t'.Owner) : t.validate.Perm t'.validate := by
  obtain ⟨tags, id, name, ssm, owner⟩ := t
  obtain ⟨tags', id', name', ssm', owner'⟩ := t'
  obtain ⟨hp, hi, hn, hs, ho⟩ := h
  simp only at hp hi hn hs ho
  subst hi hn hs ho
  have he := ViaField_perm (validateTags_perm hp) "tags"
  simp only [AMISelectorTerm.validate, Also_eq_append, List.nil_append, hp.length_eq]
  split_ifs <;> first | exact he | exact he.append (List.Perm.refl _)

theorem validateSubnetSelectorTermsLoop_perm {terms terms' : List SubnetSelectorTerm}
    (h : List.Forall₂ (fun t t' : SubnetSelectorTerm => t.Tags.Perm t'.Tags ∧ t.ID = t'.ID)
      terms terms') :
    ∀ (i : Nat) (errs errs' : FieldError), errs.Perm errs' →
      (validateSubnetSelectorTermsLoop i terms errs).Perm
        (validateSubnetSelectorTermsLoop i terms' errs') := by
  induction h with
  | nil => intro i errs errs' he; exact he
  | cons ht _ ih =>
    intro i errs errs' he
    exact ih (i + 1) _ _ (ViaIndex_perm (he.append (subnetTerm_validate_perm ht)) i)

theorem validateSecurityGroupSelectorTermsLoop_perm
    {terms terms' : List SecurityGroupSelectorTerm}
    (h : List.Forall₂
      (fun t t' : SecurityGroupSelectorTerm =>
        t.Tags.Perm t'.Tags ∧ t.ID = t'.ID ∧ t.Name = t'.Name) terms terms') :
    ∀ (errs errs' : FieldError), errs.Perm errs' →
      (validateSecurityGroupSelectorTermsLoop terms errs).Perm
        (validateSecurityGroupSelectorTermsLoop terms' errs') := by
  induction h with
  | nil => intro errs errs' he; exact he
  | cons ht _ ih =>
    intro errs errs' he
    exact ih _ _ (he.append (securityGroupTerm_validate_perm ht))

theorem validateAMISelectorTermsLoop_perm {terms terms' : List AMISelectorTerm}
    (h : List.Forall₂
      (fun t t' : AMISelectorTerm =>
        t.Tags.Perm t'.Tags ∧ t.ID = t'.ID ∧ t.Name = t'.Name ∧ t.SSM = t'.SSM ∧
          t.Owner = t'.Owner) terms terms') :
    ∀ (errs errs' : FieldError), errs.Perm errs' →
      (validateAMISelectorTermsLoop terms errs).Perm
        (validateAMISelectorTermsLoop terms' errs') := by
  induction h with
  | nil => intro errs errs' he; exact he
  | cons ht _ ih =>
    intro errs errs' he
    exact ih _ _ (he.append (amiTerm_validate_perm ht))

/-- Spec validation of two specs that differ only in the order of their maps
gives the same leaves up to order. -/
theorem validate_perm_of_sameUpToMapOrder (d : StaticData) {s s' : NodeClassSpec}
    (h : s.sameUpToMapOrder s') : (s.validate d).Perm (s'.validate d) := by
  obtain ⟨h1, h2, h3, h4, h5, h6, h7, h8⟩ := h
  have e1 : s.validateSubnetSelectorTerms.Perm s'.validateSubnetSelectorTerms := by
    simp only [NodeClassSpec.validateSubnetSelectorTerms, h1.length_eq]
    exact validateSubnetSelectorTermsLoop_perm h1 0 _ _ (List.Perm.refl _)
  have e2 : s.validateSecurityGroupSelectorTerms.Perm s'.validateSecurityGroupSelectorTerms := by
    simp only [NodeClassSpec.validateSecurityGroupSelectorTerms, h2.length_eq]
    exact validateSecurityGroupSelectorTermsLoop_perm h2 _ _ (List.Perm.refl _)
  have e3 : s.validateAMISelectorTerms.Perm s'.validateAMISelectorTerms :=
    validateAMISelectorTermsLoop_perm h3 _ _ (List.Perm.refl _)
  have e4 : s.validateMetadataOptions d = s'.validateMetadataOptions d := by
    simp only [NodeClassSpec.validateMetadataOptions, h7]
  have e5 : s.validateAMIFamily d = s'.validateAMIFamily d := by
    simp only [NodeClassSpec.validateAMIFamily, h4, h3.length_eq]
  have e6 : s.validateBlockDeviceMappings d = s'.validateBlockDeviceMappings d := by
    simp only [NodeClassSpec.validateBlockDeviceMappings, h8]
  have e7 : s.validateUserData d = s'.validateUserData d := by
    simp only [NodeClassSpec.validateUserData, h4, h5]
  have e8 : (s.validateTags d).Perm (s'.validateTags d) :=
    validateSpecTags_perm d.Quote d.RestrictedTagPatterns h6
  simp only [NodeClassSpec.validate, Also_eq_append, List.nil_append, e4, e5, e6, e7]
  exact (((((((ViaField_perm e1 _).append (ViaField_perm e2 _)).append
    (ViaField_perm e3 _)).append (List.Perm.refl _)).append (List.Perm.refl _)).append
    (List.Perm.refl _)).append (List.Perm.refl _)).append (ViaField_perm e8 _)

/-- C20: validation does not depend on the order in which a tag map is
visited. For a tag map given as a list of entries and any permutation of it,
`validateTags` and `NodeClassSpec.validateTags` return the same leaves up to
order; and two specs that differ only in the order of their tag maps get the
same leaves up to order from spec validation, so one is accepted exactly when
the other is. -/
theorem validation_independent_of_map_order (d : StaticData) :
    (∀ m m' : TagMap, m.Perm m' → (validateTags m).Perm (validateTags m')) ∧
    (∀ (s : NodeClassSpec) (m' : TagMap), s.Tags.Perm m' →
      (s.validateTags d).Perm (NodeClassSpec.validateTags d { s with Tags := m' })) ∧
    (∀ s s' : NodeClassSpec, s.sameUpToMapOrder s' →
      (s.validate d).Perm (s'.validate d) ∧ (s.validate d = [] ↔ s'.validate d = [])) := by
  refine ⟨fun _ _ h => validateTags_perm h,
    fun s m' h => validateSpecTags_perm d.Quote d.RestrictedTagPatterns h, ?_⟩
  intro s s' h
  have hp := validate_perm_of_sameUpToMapOrder d h
  refine ⟨hp, ?_, ?_⟩
  · intro h0
    rw [h0] at hp
    exact (List.Perm.nil_eq hp).symm
  · intro h0
    rw [h0] at hp
    exact List.Perm.eq_nil hp

/-- Witness of C20: a tag map and a spec, each visited in two orders. -/
theorem validation_independent_of_map_order_witness :
    (validateTags [("a", ""), ("", "b")]).Perm (validateTags [("", "b"), ("a", "")]) ∧
    (taggedSpec.validateTags sampleData).Perm (taggedSpecReordered.validateTags sampleData) ∧
    (taggedSpec.validate sampleData).Perm (taggedSpecReordered.validate sampleData) :=
  ⟨(validation_independent_of_map_order sampleData).1 _ _ (List.Perm.swap _ _ _),
   (validation_independent_of_map_order sampleData).2.1 taggedSpec
     [("karpenter.sh/nodepool", "x"), ("", "v")] (List.Perm.swap _ _ _),
   ((validation_independent_of_map_order sampleData).2.2 taggedSpec taggedSpecReordered
     ⟨List.Forall₂.cons ⟨List.Perm.swap _ _ _, rfl⟩ List.Forall₂.nil,
      List.Forall₂.cons ⟨List.Perm.refl _, rfl, rfl⟩ List.Forall₂.nil,
      List.Forall₂.nil, rfl, rfl, List.Perm.swap _ _ _, rfl, rfl⟩).1⟩

end Karpenter
